import Mathlib

/-!
Verification development for the `Web_Application` repository's detection
heuristics engine (`DetectionManager`).

The repository contains two revisions of
`src/Web_Application/src/utils/detectionUtils.ts` (an earlier one, embedded
here in namespace `V1`, and a later one, namespace `V2`) and a simpler
standalone `DetectionManager` variant (namespace `P1`).

The embedding is shallow: timestamps (`Date.now()` / `new Date()`) are
natural numbers counting milliseconds; JavaScript floating-point numbers
that can become `Infinity`/`NaN` through division are modelled by `JSNum`
over the rationals; DOM events are explicit arguments; `this.emit(...)`
calls are collected into a list of emissions returned next to the updated
manager; a thrown JavaScript `TypeError` is an `Except.error`.
-/

set_option maxHeartbeats 1000000

/-! ## Basic string utilities

`String.prototype.toLowerCase` restricted to the ASCII range (all catalog
entries are ASCII), and `String.prototype.includes` as list-infix testing. -/

/-- Lowercase a string into its character list (models `text.toLowerCase()`). -/
def lowerChars (s : String) : List Char :=
  s.toList.map Char.toLower

/-- `needle` is a prefix of `hay` (Boolean). -/
def isPrefixB : List Char → List Char → Bool
  | [], _ => true
  | _ :: _, [] => false
  | a :: as, b :: bs => a == b && isPrefixB as bs

/-- `needle` occurs as a contiguous substring of `hay` (models
`hay.includes(needle)` on strings). -/
def isInfixB (needle : List Char) : List Char → Bool
  | [] => isPrefixB needle []
  | c :: rest => isPrefixB needle (c :: rest) || isInfixB needle rest

/-- The suffix of `hay` strictly after the first occurrence of `needle`,
or `none` when `needle` does not occur. -/
def afterFirst (needle : List Char) : List Char → Option (List Char)
  | [] => if isPrefixB needle [] then some [] else none
  | c :: rest =>
    if isPrefixB needle (c :: rest) then some ((c :: rest).drop needle.length)
    else afterFirst needle rest

/-! ## JavaScript numbers

Division by zero yields `Infinity` / `-Infinity` / `NaN` in JavaScript; the
detection code divides a character count by an elapsed time that can be zero,
so the result of that division is modelled by `JSNum`. -/

/-- A JavaScript number that may be `NaN` or infinite. -/
inductive JSNum where
  | nan : JSNum
  | inf : JSNum
  | ninf : JSNum
  | num (q : ℚ) : JSNum
deriving DecidableEq, Repr

/-- JavaScript division `a / b` on numbers (`x/0` is `±Infinity` for `x ≠ 0`
and `NaN` for `0/0`). -/
def jsDiv (a b : ℚ) : JSNum :=
  if b = 0 then (if a = 0 then .nan else if 0 < a then .inf else .ninf)
  else .num (a / b)

/-- Multiplication of a possibly non-finite number by a positive rational
constant (used only with the literal `60`). -/
def jsMulPos (x : JSNum) (k : ℚ) : JSNum :=
  match x with
  | .nan => .nan
  | .inf => .inf
  | .ninf => .ninf
  | .num a => .num (a * k)

/-- JavaScript `x > q` comparison (`NaN > q` is false, `Infinity > q` true). -/
def jsGt (x : JSNum) (q : ℚ) : Bool :=
  match x with
  | .nan => false
  | .inf => true
  | .ninf => false
  | .num a => decide (q < a)

/-! ## A small regular-expression engine

The earlier revision's suspicious-content catalog consists of JavaScript
regex literals; each is encoded below as a syntax tree over character
classes and matched with Brzozowski derivatives.  `RegExp.test` performs an
unanchored search, modelled by wrapping the pattern between `[\s\S]*`;
patterns anchored with `^...$` are matched against the whole string.  All
catalog regexes carry the `i` flag, so the input is lowercased first and
the patterns are written over lowercase letters. -/

/-- Regular expressions over characters; `cls` holds a character-class
predicate. -/
inductive Re where
  | emp : Re
  | eps : Re
  | cls (p : Char → Bool) : Re
  | cat (a b : Re) : Re
  | alt (a b : Re) : Re
  | star (a : Re) : Re

/-- Whether `r` accepts the empty string. -/
def Re.nullable : Re → Bool
  | .emp => false
  | .eps => true
  | .cls _ => false
  | .cat a b => a.nullable && b.nullable
  | .alt a b => a.nullable || b.nullable
  | .star _ => true

/-- Concatenation, simplifying the `emp`/`eps` cases (keeps derivatives small). -/
def Re.scat (a b : Re) : Re :=
  match a, b with
  | .emp, _ => .emp
  | _, .emp => .emp
  | .eps, r => r
  | r, .eps => r
  | a, b => .cat a b

/-- Alternation, simplifying the `emp` cases. -/
def Re.salt (a b : Re) : Re :=
  match a, b with
  | .emp, r => r
  | r, .emp => r
  | a, b => .alt a b

/-- Brzozowski derivative of `r` with respect to character `c`. -/
def Re.deriv (r : Re) (c : Char) : Re :=
  match r with
  | .emp => .emp
  | .eps => .emp
  | .cls p => if p c then .eps else .emp
  | .cat a b =>
    if a.nullable then .salt (.scat (a.deriv c) b) (b.deriv c)
    else .scat (a.deriv c) b
  | .alt a b => .salt (a.deriv c) (b.deriv c)
  | .star a => .scat (a.deriv c) (.star a)

/-- `r` matches the whole string `s`. -/
def reFull (r : Re) (s : List Char) : Bool :=
  (s.foldl Re.deriv r).nullable

/-- `[\s\S]`: any character. -/
def anyCh : Re := .cls (fun _ => true)

/-- `.`: any character except a line terminator. -/
def dotCh : Re := .cls (fun c => !(c == '\n') && !(c == '\r'))

/-- `\s`: a whitespace character (ASCII range). -/
def wsCh : Re :=
  .cls (fun c => c == ' ' || c == '\t' || c == '\n' || c == '\r' ||
    c == '\x0b' || c == '\x0c')

/-- `\w` on lowercased input: `[a-z0-9_]`. -/
def wordCh : Re :=
  .cls (fun c => (decide ('a' ≤ c) && decide (c ≤ 'z')) ||
    (decide ('0' ≤ c) && decide (c ≤ '9')) || c == '_')

/-- `[a-z]` (with the `i` flag, on lowercased input). -/
def letterCh : Re := .cls (fun c => decide ('a' ≤ c) && decide (c ≤ 'z'))

/-- `[0-9]`. -/
def digitCh : Re := .cls (fun c => decide ('0' ≤ c) && decide (c ≤ '9'))

/-- `[^x]`: any character other than `x`. -/
def notCh (x : Char) : Re := .cls (fun c => !(c == x))

/-- A literal string of characters. -/
def rlit (s : String) : Re :=
  s.toList.foldr (fun c acc => Re.scat (.cls (fun x => x == c)) acc) .eps

/-- Concatenation of a sequence of regexes. -/
def rcat (l : List Re) : Re := l.foldr Re.scat .eps

/-- `r+`. -/
def rplus (r : Re) : Re := Re.scat r (.star r)

/-- `r{n,}`. -/
def repAtLeast (n : Nat) (r : Re) : Re :=
  Re.scat (rcat (List.replicate n r)) (.star r)

/-- Unanchored search, as `RegExp.test` performs. -/
def reSearch (r : Re) (s : List Char) : Bool :=
  reFull (Re.scat (.star anyCh) (Re.scat r (.star anyCh))) s

/-! ## Simple case-insensitive patterns

Every entry of the earlier revision's `aiDetectionPatterns` list is either a
case-insensitive literal (e.g. `/chatgpt/i`, whose `test` is exactly
case-insensitive substring containment) or of the form
`/A[\s\S]*?B/i` (the three code-block patterns), which matches exactly when
an occurrence of `B` follows an occurrence of `A`. -/

/-- A pattern that is a plain case-insensitive literal or `A[\s\S]*?B`. -/
inductive RePat where
  | sub (s : String) : RePat
  | between (a b : String) : RePat

/-- `RegExp.test` for a `RePat`, on an already-lowercased character list. -/
def rpTest (p : RePat) (lowHay : List Char) : Bool :=
  match p with
  | .sub s => isInfixB s.toList lowHay
  | .between a b =>
    match afterFirst a.toList lowHay with
    | some rest => isInfixB b.toList rest
    | none => false

/-! ## Shared data of both `detectionUtils.ts` revisions -/

/-- `DetectionOptions` (identical field set and defaults in both revisions). -/
structure DetectionOptions where
  maxTabSwitches : Nat
  aiDetectionThreshold : Nat
  inactivityTimeout : Nat
  suspiciousActivityThreshold : Nat
  mouseMovementThreshold : Nat
  screenFocusTimeout : Nat
  typingSpeedThreshold : Nat
  rapidTypingThreshold : Nat
  clipboardHistorySize : Nat
  patternDetectionThreshold : Nat
deriving DecidableEq, Repr

/-- The default option values of the `DetectionManager` class. -/
def defaultOptions : DetectionOptions where
  maxTabSwitches := 1
  aiDetectionThreshold := 1
  inactivityTimeout := 10000
  suspiciousActivityThreshold := 2
  mouseMovementThreshold := 600
  screenFocusTimeout := 2000
  typingSpeedThreshold := 150
  rapidTypingThreshold := 1
  clipboardHistorySize := 5
  patternDetectionThreshold := 2

/-- One entry of `state.suspiciousPatterns`: `{type, message, timestamp}`. -/
structure PatternEntry where
  type : String
  message : String
  timestamp : Nat
deriving DecidableEq, Repr

/-- An entry of the earlier revision's `suspiciousPatterns` regex catalog:
the regex literal's `toString()` (used as the recorded message) together
with its `test` on a lowercased character list. -/
structure SuspPat where
  src : String
  test : List Char → Bool

/-- Truthiness of `event.clipboardData?.getData("text")` (or of
`window.getSelection()?.toString()`): present and non-empty. -/
def truthyStr (cd : Option String) : Bool :=
  match cd with
  | some s => !(s == "")
  | none => false

/-- JavaScript truthiness of `this.typingStartTime : number | null`: both
`null` and the number `0` are falsy. -/
def tsVal (t : Option Nat) : Option Nat :=
  match t with
  | some v => if v = 0 then none else some v
  | none => none

namespace V1

/-!
The earlier revision of `src/Web_Application/src/utils/detectionUtils.ts`
(the first of the two concatenated revisions in that file).
-/

/-- `DetectionState` of the earlier revision (`clipboardHistory` is a plain
string list). -/
structure DetectionState where
  isTabActive : Bool
  hasAIUsage : Bool
  hasTabSwitch : Bool
  lastActiveTime : Nat
  tabSwitchCount : Nat
  aiDetectionCount : Nat
  hasMultipleScreens : Bool
  hasScreenFocus : Bool
  hasSuspiciousActivity : Bool
  mousePosition : Int × Int
  keyboardActivity : Bool
  lastMouseMove : Nat
  lastKeyPress : Nat
  typingSpeed : JSNum
  rapidTypingCount : Nat
  clipboardHistory : List String
  suspiciousPatterns : List PatternEntry
deriving DecidableEq, Repr

/-- The initial state literal, with every `new Date()` taken at `now`. -/
def initialStateAt (now : Nat) : DetectionState where
  isTabActive := true
  hasAIUsage := false
  hasTabSwitch := false
  lastActiveTime := now
  tabSwitchCount := 0
  aiDetectionCount := 0
  hasMultipleScreens := false
  hasScreenFocus := true
  hasSuspiciousActivity := false
  mousePosition := (0, 0)
  keyboardActivity := false
  lastMouseMove := now
  lastKeyPress := now
  typingSpeed := .num 0
  rapidTypingCount := 0
  clipboardHistory := []
  suspiciousPatterns := []

/-- The `DetectionManager` instance: its `state`, `options`, the private
fields, and whether each single-shot timer is currently armed. -/
structure DetectionManager where
  state : DetectionState
  options : DetectionOptions
  inactivityTimerArmed : Bool
  screenFocusTimerArmed : Bool
  lastMousePosition : Int × Int
  mouseMovementCount : Nat
  suspiciousActivityCount : Nat
  typingStartTime : Option Nat
  typingCharacterCount : Nat
deriving DecidableEq, Repr

/-- A freshly constructed manager (module load taken at time 0). -/
def initManager : DetectionManager where
  state := initialStateAt 0
  options := defaultOptions
  inactivityTimerArmed := false
  screenFocusTimerArmed := false
  lastMousePosition := (0, 0)
  mouseMovementCount := 0
  suspiciousActivityCount := 0
  typingStartTime := none
  typingCharacterCount := 0

/-- Notifications: the earlier revision emits only `"stateChange"`
snapshots. -/
inductive Emit where
  | stateChange (s : DetectionState) : Emit
deriving DecidableEq, Repr

/-- The `aiDetectionPatterns` regex list.  Every entry is a case-insensitive
literal (so its `test` is case-insensitive substring containment), except
the three code-block patterns `/A[\s\S]*?B/i` at the end. -/
def aiDetectionPatterns : List RePat := [
  -- AI Tools
  .sub "chatgpt", .sub "bard", .sub "claude", .sub "copilot", .sub "gpt",
  .sub "openai", .sub "anthropic", .sub "gemini", .sub "perplexity",
  .sub "midjourney", .sub "dall-e", .sub "stable diffusion", .sub "jupyter",
  .sub "colab", .sub "kaggle",
  -- Coding Platforms
  .sub "stack overflow", .sub "github", .sub "leetcode", .sub "hackerrank",
  .sub "codechef", .sub "geeksforgeeks", .sub "codeforces", .sub "replit",
  .sub "codesandbox", .sub "codepen",
  -- AI-related Terms
  .sub "artificial intelligence", .sub "machine learning",
  .sub "neural network", .sub "deep learning", .sub "large language model",
  .sub "transformer", .sub "attention mechanism",
  .sub "reinforcement learning",
  -- Common AI Tool Shortcuts (escaped + is a literal plus sign)
  .sub "ctrl+c", .sub "ctrl+v", .sub "ctrl+a", .sub "cmd+c", .sub "cmd+v",
  .sub "cmd+a", .sub "ctrl+shift+v", .sub "cmd+shift+v",
  -- Code Snippets
  .between "```" "```", .between "<code>" "</code>",
  .between "<pre>" "</pre>"]

/-- The `suspiciousPatterns` regex catalog (class field, distinct from
`state.suspiciousPatterns`).  Each entry pairs the regex literal's
`toString()` with its `test`; pure literals use substring containment, the
rest use the derivative engine; `^...$`-anchored patterns match the whole
string. -/
def suspiciousPatterns : List SuspPat := [
  -- Rapid typing patterns
  ⟨"/^[a-z]\x7b8,\x7d$/i", fun h => reFull (repAtLeast 8 letterCh) h⟩,
  ⟨"/^[A-Z]\x7b8,\x7d$/i", fun h => reFull (repAtLeast 8 letterCh) h⟩,
  ⟨"/^[0-9]\x7b8,\x7d$/i", fun h => reFull (repAtLeast 8 digitCh) h⟩,
  -- Code-like patterns
  ⟨"/function\\s+\\w+\\s*\\([^)]*\\)\\s*\x7b/i",
    fun h => reSearch (rcat [rlit "function", rplus wsCh, rplus wordCh,
      .star wsCh, rlit "(", .star (notCh ')'), rlit ")", .star wsCh,
      rlit "\x7b"]) h⟩,
  ⟨"/class\\s+\\w+\\s*\x7b/i",
    fun h => reSearch (rcat [rlit "class", rplus wsCh, rplus wordCh,
      .star wsCh, rlit "\x7b"]) h⟩,
  ⟨"/import\\s+.*from/i",
    fun h => reSearch (rcat [rlit "import", rplus wsCh, .star dotCh,
      rlit "from"]) h⟩,
  ⟨"/const\\s+\\w+\\s*=/i",
    fun h => reSearch (rcat [rlit "const", rplus wsCh, rplus wordCh,
      .star wsCh, rlit "="]) h⟩,
  ⟨"/let\\s+\\w+\\s*=/i",
    fun h => reSearch (rcat [rlit "let", rplus wsCh, rplus wordCh,
      .star wsCh, rlit "="]) h⟩,
  ⟨"/var\\s+\\w+\\s*=/i",
    fun h => reSearch (rcat [rlit "var", rplus wsCh, rplus wordCh,
      .star wsCh, rlit "="]) h⟩,
  ⟨"/async\\s+function/i",
    fun h => reSearch (rcat [rlit "async", rplus wsCh, rlit "function"]) h⟩,
  ⟨"/=>\\s*\x7b/i",
    fun h => reSearch (rcat [rlit "=>", .star wsCh, rlit "\x7b"]) h⟩,
  ⟨"/new\\s+Promise/i",
    fun h => reSearch (rcat [rlit "new", rplus wsCh, rlit "promise"]) h⟩,
  -- Common code snippets
  ⟨"/console\\.log/i", fun h => isInfixB "console.log".toList h⟩,
  ⟨"/return\\s+.*;/i",
    fun h => reSearch (rcat [rlit "return", rplus wsCh, .star dotCh,
      rlit ";"]) h⟩,
  ⟨"/if\\s*\\([^)]*\\)/i",
    fun h => reSearch (rcat [rlit "if", .star wsCh, rlit "(",
      .star (notCh ')'), rlit ")"]) h⟩,
  ⟨"/for\\s*\\([^)]*\\)/i",
    fun h => reSearch (rcat [rlit "for", .star wsCh, rlit "(",
      .star (notCh ')'), rlit ")"]) h⟩,
  ⟨"/while\\s*\\([^)]*\\)/i",
    fun h => reSearch (rcat [rlit "while", .star wsCh, rlit "(",
      .star (notCh ')'), rlit ")"]) h⟩,
  ⟨"/try\\s*\x7b/i",
    fun h => reSearch (rcat [rlit "try", .star wsCh, rlit "\x7b"]) h⟩,
  ⟨"/catch\\s*\\([^)]*\\)/i",
    fun h => reSearch (rcat [rlit "catch", .star wsCh, rlit "(",
      .star (notCh ')'), rlit ")"]) h⟩,
  ⟨"/finally\\s*\x7b/i",
    fun h => reSearch (rcat [rlit "finally", .star wsCh, rlit "\x7b"]) h⟩,
  -- Interview-specific patterns
  ⟨"/time complexity/i", fun h => isInfixB "time complexity".toList h⟩,
  ⟨"/space complexity/i", fun h => isInfixB "space complexity".toList h⟩,
  ⟨"/big o/i", fun h => isInfixB "big o".toList h⟩,
  ⟨"/algorithm/i", fun h => isInfixB "algorithm".toList h⟩,
  ⟨"/data structure/i", fun h => isInfixB "data structure".toList h⟩,
  ⟨"/optimization/i", fun h => isInfixB "optimization".toList h⟩,
  ⟨"/recursion/i", fun h => isInfixB "recursion".toList h⟩,
  ⟨"/dynamic programming/i", fun h => isInfixB "dynamic programming".toList h⟩,
  -- Common interview answers
  ⟨"/bubble sort/i", fun h => isInfixB "bubble sort".toList h⟩,
  ⟨"/quick sort/i", fun h => isInfixB "quick sort".toList h⟩,
  ⟨"/merge sort/i", fun h => isInfixB "merge sort".toList h⟩,
  ⟨"/binary search/i", fun h => isInfixB "binary search".toList h⟩,
  ⟨"/hash table/i", fun h => isInfixB "hash table".toList h⟩,
  ⟨"/linked list/i", fun h => isInfixB "linked list".toList h⟩,
  ⟨"/binary tree/i", fun h => isInfixB "binary tree".toList h⟩,
  ⟨"/graph/i", fun h => isInfixB "graph".toList h⟩]

/-- `addSuspiciousPattern(type, message)`: discard the candidate when an
identical `(type, message)` entry was recorded within the last 5000 ms,
else push a new entry stamped `new Date()`. -/
def addSuspiciousPattern (ptype message : String) (now : Nat)
    (m : DetectionManager) : DetectionManager :=
  let recentPattern := m.state.suspiciousPatterns.find? (fun p =>
    p.type == ptype && p.message == message &&
      decide ((now : Int) - (p.timestamp : Int) < 5000))
  match recentPattern with
  | some _ => m
  | none =>
    { m with state := { m.state with suspiciousPatterns :=
        m.state.suspiciousPatterns ++ [⟨ptype, message, now⟩] } }

/-- `checkAIUsageThreshold()`: latch `hasAIUsage` and emit once
`aiDetectionCount` reaches `aiDetectionThreshold`. -/
def checkAIUsageThreshold (m : DetectionManager) :
    DetectionManager × List Emit :=
  if m.options.aiDetectionThreshold ≤ m.state.aiDetectionCount then
    let st := { m.state with hasAIUsage := true }
    ({ m with state := st }, [.stateChange st])
  else (m, [])

/-- `checkForAIUsage(text)`: on any catalog regex match, bump
`aiDetectionCount` and re-check the threshold. -/
def checkForAIUsage (text : String) (m : DetectionManager) :
    DetectionManager × List Emit :=
  let hasAIPattern := aiDetectionPatterns.any (fun p => rpTest p (lowerChars text))
  if hasAIPattern then
    checkAIUsageThreshold
      { m with state := { m.state with aiDetectionCount :=
          m.state.aiDetectionCount + 1 } }
  else (m, [])

/-- `checkForSuspiciousPatterns(text)`: record one `"code"` pattern entry per
matching catalog regex (message = the regex's `toString()`), then latch
`hasSuspiciousActivity` when the recorded entries reach
`patternDetectionThreshold`. -/
def checkForSuspiciousPatterns (text : String) (now : Nat)
    (m : DetectionManager) : DetectionManager :=
  let patterns := suspiciousPatterns.filter (fun p => p.test (lowerChars text))
  if 0 < patterns.length then
    let m1 := patterns.foldl
      (fun acc p => addSuspiciousPattern "code" p.src now acc) m
    if m1.options.patternDetectionThreshold ≤
        m1.state.suspiciousPatterns.length then
      { m1 with state := { m1.state with hasSuspiciousActivity := true } }
    else m1
  else m

/-- `handlePaste(event)`: prepend the pasted text to `clipboardHistory`,
evicting the oldest entry when the bound is exceeded, then run the AI and
suspicious-pattern checks.  The handler itself emits nothing. -/
def handlePaste (cd : Option String) (now : Nat) (m : DetectionManager) :
    DetectionManager × List Emit :=
  if truthyStr cd then
    let pastedText := cd.getD ""
    let hist1 := pastedText :: m.state.clipboardHistory
    let hist2 :=
      if m.options.clipboardHistorySize < hist1.length then hist1.dropLast
      else hist1
    let m1 := { m with state := { m.state with clipboardHistory := hist2 } }
    let r := checkForAIUsage pastedText m1
    (checkForSuspiciousPatterns pastedText now r.1, r.2)
  else (m, [])

/-- `checkSuspiciousActivity()`: latch and emit when the mouse-movement
counter exceeds `suspiciousActivityThreshold`. -/
def checkSuspiciousActivity (m : DetectionManager) :
    DetectionManager × List Emit :=
  if m.options.suspiciousActivityThreshold < m.mouseMovementCount then
    let st := { m.state with hasSuspiciousActivity := true }
    ({ m with state := st }, [.stateChange st])
  else (m, [])

/-- `handleVisibilityChange()`: when the document becomes hidden, bump
`tabSwitchCount`, set `hasTabSwitch`, refresh `lastActiveTime`, run
`checkSuspiciousActivity` and emit; in all cases finally assign
`isTabActive` (after the emission, which therefore carries the old value). -/
def handleVisibilityChange (visible : Bool) (now : Nat)
    (m : DetectionManager) : DetectionManager × List Emit :=
  if !visible then
    let st1 := { m.state with
      tabSwitchCount := m.state.tabSwitchCount + 1
      hasTabSwitch := true
      lastActiveTime := now }
    let (m2, es2) := checkSuspiciousActivity { m with state := st1 }
    let es3 := es2 ++ [.stateChange m2.state]
    ({ m2 with state := { m2.state with isTabActive := false } }, es3)
  else ({ m with state := { m.state with isTabActive := true } }, [])

/-- `handleScreenFocus()`: restore `hasScreenFocus`, cancel the blur timer,
emit. -/
def handleScreenFocus (m : DetectionManager) : DetectionManager × List Emit :=
  let st := { m.state with hasScreenFocus := true }
  ({ m with state := st, screenFocusTimerArmed := false }, [.stateChange st])

/-- `handleScreenBlur()`: clear `hasScreenFocus` and arm the single-shot
`screenFocusTimer` (the earlier revision emits nothing here). -/
def handleScreenBlur (m : DetectionManager) : DetectionManager × List Emit :=
  ({ m with
    state := { m.state with hasScreenFocus := false }
    screenFocusTimerArmed := true }, [])

/-- The `screenFocusTimer` callback firing (only when still armed): latch
`hasSuspiciousActivity` and emit. -/
def screenFocusTimerFire (m : DetectionManager) :
    DetectionManager × List Emit :=
  if m.screenFocusTimerArmed then
    let st := { m.state with hasSuspiciousActivity := true }
    ({ m with state := st, screenFocusTimerArmed := false }, [.stateChange st])
  else (m, [])

/-- `resetInactivityTimer()`: clear and re-arm the inactivity timer. -/
def resetInactivityTimer (m : DetectionManager) : DetectionManager :=
  { m with inactivityTimerArmed := true }

/-- The inactivity timer callback firing (only when still armed): latch
`hasSuspiciousActivity` and emit. -/
def inactivityTimerFire (m : DetectionManager) :
    DetectionManager × List Emit :=
  if m.inactivityTimerArmed then
    let st := { m.state with hasSuspiciousActivity := true }
    ({ m with state := st, inactivityTimerArmed := false }, [.stateChange st])
  else (m, [])

/-- `isUnnaturalMovement(deltaX, deltaY)` on the (already absolute) deltas:
perfectly straight, perfectly diagonal, or a too-regular interval. -/
def isUnnaturalMovement (deltaX deltaY : Nat) : Bool :=
  let isStraightLine := deltaX == 0 || deltaY == 0
  let isDiagonal := deltaX == deltaY
  let isRegularInterval := checkRegularIntervals deltaX deltaY
  isStraightLine || isDiagonal || isRegularInterval
where
  /-- `checkRegularIntervals` is a stub returning `false` in the source. -/
  checkRegularIntervals (_ _ : Nat) : Bool := false

/-- `handleMouseMove(event)`: refresh activity data, count large movements
(latching suspicion past the threshold), record unnatural-movement
patterns, remember the position, emit. -/
def handleMouseMove (x y : Int) (now : Nat) (m : DetectionManager) :
    DetectionManager × List Emit :=
  let m0 := resetInactivityTimer m
  let m1 := { m0 with state := { m0.state with
    lastMouseMove := now
    mousePosition := (x, y) } }
  let deltaX := (x - m1.lastMousePosition.1).natAbs
  let deltaY := (y - m1.lastMousePosition.2).natAbs
  let totalMovement := deltaX + deltaY
  let m2 :=
    if m1.options.mouseMovementThreshold < totalMovement then
      let mc := { m1 with mouseMovementCount := m1.mouseMovementCount + 1 }
      if mc.options.suspiciousActivityThreshold < mc.mouseMovementCount then
        addSuspiciousPattern "mouse" "Rapid mouse movement detected" now
          { mc with state := { mc.state with hasSuspiciousActivity := true } }
      else mc
    else m1
  let m3 :=
    if isUnnaturalMovement deltaX deltaY then
      addSuspiciousPattern "mouse" "Unnatural mouse movement detected" now m2
    else m2
  let m4 := { m3 with lastMousePosition := (x, y) }
  (m4, [.stateChange m4.state])

/-- `checkTypingPatterns()`: recompute `typingSpeed` from the typing-session
window, latch rapid typing, and clear the window once more than 5 seconds
have elapsed since the window started. -/
def checkTypingPatterns (now : Nat) (m : DetectionManager) :
    DetectionManager :=
  match tsVal m.typingStartTime with
  | none => m
  | some start =>
    let timeElapsed : ℚ := ((now : ℚ) - (start : ℚ)) / 1000
    let charsPerMinute := jsMulPos (jsDiv (m.typingCharacterCount : ℚ) timeElapsed) 60
    let m1 := { m with state := { m.state with typingSpeed := charsPerMinute } }
    let m2 :=
      if jsGt charsPerMinute (m1.options.typingSpeedThreshold : ℚ) then
        let mr := { m1 with state := { m1.state with rapidTypingCount :=
          m1.state.rapidTypingCount + 1 } }
        if mr.options.rapidTypingThreshold ≤ mr.state.rapidTypingCount then
          addSuspiciousPattern "typing" "Rapid typing detected" now
            { mr with state := { mr.state with hasSuspiciousActivity := true } }
        else mr
      else m1
    if (5 : ℚ) < timeElapsed then
      { m2 with typingStartTime := none, typingCharacterCount := 0 }
    else m2

/-- `handleKeyPress(event)`: refresh activity data, open a typing window if
none is running, count modifier copy/paste/select-all combinations toward
AI detection, record undo/redo patterns, count printable characters and
recompute typing patterns, emit. -/
def handleKeyPress (key : String) (ctrlKey metaKey : Bool) (now : Nat)
    (m : DetectionManager) : DetectionManager × List Emit :=
  let m0 := resetInactivityTimer m
  let m1 := { m0 with state := { m0.state with
    lastKeyPress := now
    keyboardActivity := true } }
  let m2 :=
    match tsVal m1.typingStartTime with
    | none => { m1 with typingStartTime := some now, typingCharacterCount := 0 }
    | some _ => m1
  let r3 :=
    if ctrlKey || metaKey then
      let ra :=
        if key == "v" || key == "c" || key == "a" then
          checkAIUsageThreshold { m2 with state := { m2.state with
            aiDetectionCount := m2.state.aiDetectionCount + 1 } }
        else (m2, [])
      let mb :=
        if key == "z" || key == "y" then
          addSuspiciousPattern "keyboard" "Undo/Redo operation detected" now ra.1
        else ra.1
      (mb, ra.2)
    else (m2, [])
  let m4 :=
    if key.length == 1 then
      checkTypingPatterns now
        { r3.1 with typingCharacterCount := r3.1.typingCharacterCount + 1 }
    else r3.1
  -- `Tab`/`Enter` invoke `checkForPatternInBuffer`, a stub with no effect.
  (m4, r3.2 ++ [.stateChange m4.state])

/-- One tick of the periodic clipboard poll in `startAIUsageDetection`:
a successful non-empty read runs `checkForAIUsage`; a rejected read is
swallowed by the `.catch(() => {})` handler. -/
def pollTick (readResult : Except Unit String) (m : DetectionManager) :
    DetectionManager × List Emit :=
  match readResult with
  | .ok text => if truthyStr (some text) then checkForAIUsage text m else (m, [])
  | .error _ => (m, [])

/-- `resetState()`: reinstall the initial state literal, clear the private
counters and the typing window, and emit. -/
def resetState (now : Nat) (m : DetectionManager) :
    DetectionManager × List Emit :=
  let st := initialStateAt now
  ({ m with
    state := st
    mouseMovementCount := 0
    suspiciousActivityCount := 0
    typingStartTime := none
    typingCharacterCount := 0 }, [.stateChange st])

/-- The DOM/timer events the earlier revision's manager reacts to. -/
inductive Event where
  | visibility (visible : Bool) (now : Nat) : Event
  | focusWin : Event
  | blurWin : Event
  | screenFocusFire : Event
  | inactivityFire : Event
  | mouseMove (x y : Int) (now : Nat) : Event
  | keyPress (key : String) (ctrlKey metaKey : Bool) (now : Nat) : Event
  | pasteEv (cd : Option String) (now : Nat) : Event
  | pollTickEv (readResult : Except Unit String) : Event

/-- Dispatch one event to its handler. -/
def step (e : Event) (m : DetectionManager) : DetectionManager × List Emit :=
  match e with
  | .visibility visible now => handleVisibilityChange visible now m
  | .focusWin => handleScreenFocus m
  | .blurWin => handleScreenBlur m
  | .screenFocusFire => screenFocusTimerFire m
  | .inactivityFire => inactivityTimerFire m
  | .mouseMove x y now => handleMouseMove x y now m
  | .keyPress key c mk now => handleKeyPress key c mk now m
  | .pasteEv cd now => handlePaste cd now m
  | .pollTickEv r => pollTick r m

end V1

namespace V2

/-!
The later revision of `src/Web_Application/src/utils/detectionUtils.ts`
(the second of the two concatenated revisions in that file).
-/

/-- `"copy" | "paste"`. -/
inductive ClipType where
  | copy : ClipType
  | paste : ClipType
deriving DecidableEq, Repr

/-- `"web" | "system"`. -/
inductive ClipSource where
  | web : ClipSource
  | system : ClipSource
deriving DecidableEq, Repr

/-- The paste/copy context object (the object literal also carries a
`timestamp` beyond the declared interface). -/
structure ClipContext where
  elementType : String
  elementId : String
  elementClass : String
  isInput : Bool
  isContentEditable : Bool
  timestamp : Nat
deriving DecidableEq, Repr

/-- One `clipboardHistory` entry of the later revision. -/
structure ClipboardEntry where
  content : String
  timestamp : Nat
  type : ClipType
  source : ClipSource
  url : String
  context : ClipContext
deriving DecidableEq, Repr

/-- The fields of `event.target as HTMLElement` the handlers read.  A paste
or copy event may carry no target at all (`event.target` is `null`). -/
structure TargetElem where
  tagName : String
  id : String
  className : String
  contentEditable : String
  role : Option String
deriving DecidableEq, Repr

/-- `DetectionState` of the later revision. -/
structure DetectionState where
  isTabActive : Bool
  hasAIUsage : Bool
  hasTabSwitch : Bool
  lastActiveTime : Nat
  tabSwitchCount : Nat
  aiDetectionCount : Nat
  hasMultipleScreens : Bool
  hasScreenFocus : Bool
  hasSuspiciousActivity : Bool
  mousePosition : Int × Int
  keyboardActivity : Bool
  lastMouseMove : Nat
  lastKeyPress : Nat
  typingSpeed : JSNum
  rapidTypingCount : Nat
  clipboardHistory : List ClipboardEntry
  suspiciousPatterns : List PatternEntry
  screenInactiveCount : Nat
  lastClipboardOperation : Nat
  clipboardOperationCount : Nat
  webClipboardCount : Nat
deriving DecidableEq, Repr

/-- The initial state literal (note `keyboardActivity: true` in this
revision), with every `new Date()` taken at `now`. -/
def initialStateAt (now : Nat) : DetectionState where
  isTabActive := true
  hasAIUsage := false
  hasTabSwitch := false
  lastActiveTime := now
  tabSwitchCount := 0
  aiDetectionCount := 0
  hasMultipleScreens := false
  hasScreenFocus := true
  hasSuspiciousActivity := false
  mousePosition := (0, 0)
  keyboardActivity := true
  lastMouseMove := now
  lastKeyPress := now
  typingSpeed := .num 0
  rapidTypingCount := 0
  clipboardHistory := []
  suspiciousPatterns := []
  screenInactiveCount := 0
  lastClipboardOperation := now
  clipboardOperationCount := 0
  webClipboardCount := 0

/-- The later revision's `DetectionManager` instance. -/
structure DetectionManager where
  state : DetectionState
  options : DetectionOptions
  inactivityTimerArmed : Bool
  screenFocusTimerArmed : Bool
  lastMousePosition : Int × Int
  mouseMovementCount : Nat
  suspiciousActivityCount : Nat
  typingStartTime : Option Nat
  typingCharacterCount : Nat
deriving DecidableEq, Repr

/-- A freshly constructed manager (module load taken at time 0). -/
def initManager : DetectionManager where
  state := initialStateAt 0
  options := defaultOptions
  inactivityTimerArmed := false
  screenFocusTimerArmed := false
  lastMousePosition := (0, 0)
  mouseMovementCount := 0
  suspiciousActivityCount := 0
  typingStartTime := none
  typingCharacterCount := 0

/-- Notifications of the later revision: `"stateChange"` snapshots and
`"clipboardOperation"` events. -/
inductive Emit where
  | stateChange (s : DetectionState) : Emit
  | clipboardOperation (type : ClipType) (content : String)
      (source : ClipSource) (context : ClipContext) : Emit
deriving DecidableEq, Repr

/-- A thrown JavaScript exception (the `TypeError` from dereferencing a
`null` `event.target`), carrying the manager and the emissions as of the
throw; the throw happens before any state mutation of the handler. -/
structure Thrown where
  mgr : DetectionManager
  emitted : List Emit
deriving DecidableEq, Repr

/-- The later revision's `aiDetectionPatterns`: a list of plain lowercase
strings matched with `String.includes` (some phrases occur twice in the
source list; the duplicates are kept). -/
def aiDetectionPatterns : List String := [
  -- AI Tool Names
  "chatgpt", "gpt-", "bard", "claude", "anthropic", "openai", "copilot",
  "github copilot", "codex", "dall-e", "midjourney", "stable diffusion",
  -- Common AI Response Patterns
  "here's a comprehensive answer", "let me explain this in detail",
  "here's a step-by-step solution", "based on the provided information",
  "according to the given context", "here's a detailed explanation",
  "let me break this down", "here's a structured response",
  -- Code Generation Patterns
  "```python", "```javascript", "```typescript", "```java", "```cpp",
  "```sql", "```html", "```css",
  -- AI Response Markers
  "in conclusion", "to summarize", "in summary", "therefore", "thus",
  "consequently", "as a result",
  -- Interview-Specific AI Patterns
  "here's a sample answer", "here's a model response",
  "here's an example solution", "here's a template answer",
  "here's a suggested response", "here's a recommended approach",
  -- Technical Terms Often Used by AI
  "algorithm", "implementation", "optimization", "complexity", "efficiency",
  "performance", "scalability", "architecture",
  -- Common AI Response Structures
  "first, let's", "next, we'll", "then, we can", "finally, we should",
  "in the first step", "in the next step", "in the final step",
  -- AI Response Qualifiers
  "generally speaking", "typically", "usually", "commonly", "in most cases",
  "in general", "as a general rule",
  -- Interview-Specific AI Phrases
  "here's how you can answer", "here's a good way to respond",
  "here's an effective answer", "here's a strong response",
  "here's a comprehensive answer", "here's a well-structured response",
  -- Code-Specific AI Patterns
  "function", "class", "method", "interface", "implementation",
  "inheritance", "polymorphism", "encapsulation",
  -- AI Response Transitions
  "moving forward", "proceeding with", "continuing with", "following this",
  "subsequently", "thereafter", "consequently",
  -- Interview-Specific AI Closings
  "this should help you answer", "this will guide you through",
  "this provides a framework for", "this gives you a structure for",
  "this offers a template for", "this serves as a model for"]

/-- `addSuspiciousPattern(pattern)`: drop the candidate when an identical
`(type, message)` entry exists within the last 5000 ms, else push it and
emit a state snapshot. -/
def addSuspiciousPattern (pattern : PatternEntry) (now : Nat)
    (m : DetectionManager) : DetectionManager × List Emit :=
  let recentPatterns := m.state.suspiciousPatterns.filter (fun p =>
    p.type == pattern.type && p.message == pattern.message &&
      decide ((now : Int) - (p.timestamp : Int) < 5000))
  if recentPatterns.length == 0 then
    let st := { m.state with suspiciousPatterns :=
      m.state.suspiciousPatterns ++ [pattern] }
    ({ m with state := st }, [.stateChange st])
  else (m, [])

/-- `checkForAIUsage(text)` of the later revision: count the catalog
phrases contained in the lowercased text, weight rapid typing (+2 when
`typingSpeed > 150`) and a long clipboard history (+1 when the length
exceeds 5), record one `"ai"` pattern entry listing the matched phrases,
and report whether the combined score reaches 3. -/
def checkForAIUsage (text : String) (now : Nat) (m : DetectionManager) :
    Bool × DetectionManager × List Emit :=
  let lowerText := lowerChars text
  let scan := aiDetectionPatterns.foldl
    (fun (acc : Nat × List String) p =>
      if isInfixB p.toList lowerText then (acc.1 + 1, acc.2 ++ [p]) else acc)
    (0, [])
  let aiPatternCount := scan.1
  let detectedPatterns := scan.2
  let aiPatternCount := if jsGt m.state.typingSpeed 150 then aiPatternCount + 2
    else aiPatternCount
  let aiPatternCount := if 5 < m.state.clipboardHistory.length then
    aiPatternCount + 1 else aiPatternCount
  let ra :=
    if 0 < detectedPatterns.length then
      addSuspiciousPattern ⟨"ai", "AI-like patterns detected: " ++
        String.intercalate ", " detectedPatterns, now⟩ now m
    else (m, [])
  (decide (3 ≤ aiPatternCount), ra.1, ra.2)

/-- `checkAIUsageThreshold()`: latch `hasAIUsage` and emit once
`aiDetectionCount` reaches `aiDetectionThreshold`. -/
def checkAIUsageThreshold (m : DetectionManager) :
    DetectionManager × List Emit :=
  if m.options.aiDetectionThreshold ≤ m.state.aiDetectionCount then
    let st := { m.state with hasAIUsage := true }
    ({ m with state := st }, [.stateChange st])
  else (m, [])

/-- `detectClipboardSource(event)`: classify the operation as `"web"` from
input/textarea targets, content-editable targets, `role="textbox"`, or
editor-like class names, else `"system"` (a `null` target is guarded). -/
def detectClipboardSource (target : Option TargetElem) : ClipSource :=
  match target with
  | none => .system
  | some t =>
    if t.tagName == "INPUT" || t.tagName == "TEXTAREA" then .web
    else if t.contentEditable == "true" then .web
    else if t.role == some "textbox" then .web
    else if isInfixB "editor".toList t.className.toList ||
      isInfixB "code".toList t.className.toList ||
      isInfixB "monaco".toList t.className.toList then .web
    else if isInfixB "rich-text".toList t.className.toList ||
      isInfixB "wysiwyg".toList t.className.toList then .web
    else .system

/-- The context object built by the paste/copy handlers from
`event.target` (empty `id`/`className` fall back to `"unknown"`). -/
def mkContext (t : TargetElem) (now : Nat) : ClipContext where
  elementType := String.mk (lowerChars t.tagName)
  elementId := if t.id == "" then "unknown" else t.id
  elementClass := if t.className == "" then "unknown" else t.className
  isInput := t.tagName == "INPUT" || t.tagName == "TEXTAREA"
  isContentEditable := t.contentEditable == "true"
  timestamp := now

/-- `handlePaste(event)` of the later revision: record the paste in
`clipboardHistory` (an unbounded `push` — no eviction), update the
clipboard counters, latch `hasAIUsage` when `checkForAIUsage` reports an
AI-likeness score of at least 3, emit a `clipboardOperation` event and
finally a state snapshot.  Dereferencing a `null` `event.target`'s
`tagName` throws a `TypeError` before any state mutation. -/
def handlePaste (cd : Option String) (target : Option TargetElem)
    (url : String) (now : Nat) (m : DetectionManager) :
    Except Thrown (DetectionManager × List Emit) :=
  if truthyStr cd then
    let pastedText := cd.getD ""
    let source := detectClipboardSource target
    match target with
    | none => .error ⟨m, []⟩
    | some t =>
      let context := mkContext t now
      let entry : ClipboardEntry :=
        ⟨pastedText, now, .paste, source, url, context⟩
      let m1 := { m with state := { m.state with
        clipboardHistory := m.state.clipboardHistory ++ [entry]
        lastClipboardOperation := now
        clipboardOperationCount := m.state.clipboardOperationCount + 1 } }
      let m2 :=
        if source == .web then
          { m1 with state := { m1.state with webClipboardCount :=
            m1.state.webClipboardCount + 1 } }
        else m1
      let r := checkForAIUsage pastedText now m2
      let r4 :=
        if r.1 then
          addSuspiciousPattern ⟨"ai",
            "Potential AI-generated content detected in pasted text", now⟩
            now { r.2.1 with state := { r.2.1.state with hasAIUsage := true } }
        else (r.2.1, [])
      .ok (r4.1, r.2.2 ++ r4.2 ++
        [.clipboardOperation .paste pastedText source context,
         .stateChange r4.1.state])
  else .ok (m, [.stateChange m.state])

/-- `handleCopy(event)`: record the selection in `clipboardHistory`
(unbounded `push`), update the clipboard counters, emit a
`clipboardOperation` event and finally a state snapshot; like the paste
handler it throws a `TypeError` on a `null` target. -/
def handleCopy (sel : Option String) (target : Option TargetElem)
    (url : String) (now : Nat) (m : DetectionManager) :
    Except Thrown (DetectionManager × List Emit) :=
  if truthyStr sel then
    let selectedText := sel.getD ""
    let source := detectClipboardSource target
    match target with
    | none => .error ⟨m, []⟩
    | some t =>
      let context := mkContext t now
      let entry : ClipboardEntry :=
        ⟨selectedText, now, .copy, source, url, context⟩
      let m1 := { m with state := { m.state with
        clipboardHistory := m.state.clipboardHistory ++ [entry]
        lastClipboardOperation := now
        clipboardOperationCount := m.state.clipboardOperationCount + 1 } }
      let m2 :=
        if source == .web then
          { m1 with state := { m1.state with webClipboardCount :=
            m1.state.webClipboardCount + 1 } }
        else m1
      .ok (m2, [.clipboardOperation .copy selectedText source context,
        .stateChange m2.state])
  else .ok (m, [.stateChange m.state])

/-- `handleVisibilityChange()` of the later revision: on hidden bump
`screenInactiveCount` and clear `hasScreenFocus`, on visible restore
`hasScreenFocus`; always refresh `lastActiveTime` and emit
(`isTabActive` is never written by this revision's handler). -/
def handleVisibilityChange (visible : Bool) (now : Nat)
    (m : DetectionManager) : DetectionManager × List Emit :=
  let m1 :=
    if !visible then
      { m with state := { m.state with
        screenInactiveCount := m.state.screenInactiveCount + 1
        hasScreenFocus := false } }
    else { m with state := { m.state with hasScreenFocus := true } }
  let m2 := { m1 with state := { m1.state with lastActiveTime := now } }
  (m2, [.stateChange m2.state])

/-- `handleScreenFocus()`: restore `hasScreenFocus`, cancel the blur
timer, emit. -/
def handleScreenFocus (m : DetectionManager) : DetectionManager × List Emit :=
  let st := { m.state with hasScreenFocus := true }
  ({ m with state := st, screenFocusTimerArmed := false }, [.stateChange st])

/-- `handleScreenBlur()` of the later revision: clear `hasScreenFocus`,
bump `screenInactiveCount`, arm the blur timer, emit. -/
def handleScreenBlur (m : DetectionManager) : DetectionManager × List Emit :=
  let st := { m.state with
    hasScreenFocus := false
    screenInactiveCount := m.state.screenInactiveCount + 1 }
  ({ m with state := st, screenFocusTimerArmed := true }, [.stateChange st])

/-- The `screenFocusTimer` callback firing (only when still armed): latch
`hasSuspiciousActivity` and emit. -/
def screenFocusTimerFire (m : DetectionManager) :
    DetectionManager × List Emit :=
  if m.screenFocusTimerArmed then
    let st := { m.state with hasSuspiciousActivity := true }
    ({ m with state := st, screenFocusTimerArmed := false }, [.stateChange st])
  else (m, [])

/-- `resetInactivityTimer()`: clear and re-arm the inactivity timer. -/
def resetInactivityTimer (m : DetectionManager) : DetectionManager :=
  { m with inactivityTimerArmed := true }

/-- The inactivity timer callback firing (only when still armed): latch
`hasSuspiciousActivity` and emit. -/
def inactivityTimerFire (m : DetectionManager) :
    DetectionManager × List Emit :=
  if m.inactivityTimerArmed then
    let st := { m.state with hasSuspiciousActivity := true }
    ({ m with state := st, inactivityTimerArmed := false }, [.stateChange st])
  else (m, [])

/-- `isUnnaturalMovement(deltaX, deltaY)` (identical to the earlier
revision). -/
def isUnnaturalMovement (deltaX deltaY : Nat) : Bool :=
  let isStraightLine := deltaX == 0 || deltaY == 0
  let isDiagonal := deltaX == deltaY
  let isRegularInterval := checkRegularIntervals deltaX deltaY
  isStraightLine || isDiagonal || isRegularInterval
where
  /-- `checkRegularIntervals` is a stub returning `false` in the source. -/
  checkRegularIntervals (_ _ : Nat) : Bool := false

/-- `handleMouseMove(event)` of the later revision (as in the earlier one,
but `addSuspiciousPattern` now emits). -/
def handleMouseMove (x y : Int) (now : Nat) (m : DetectionManager) :
    DetectionManager × List Emit :=
  let m0 := resetInactivityTimer m
  let m1 := { m0 with state := { m0.state with
    lastMouseMove := now
    mousePosition := (x, y) } }
  let deltaX := (x - m1.lastMousePosition.1).natAbs
  let deltaY := (y - m1.lastMousePosition.2).natAbs
  let totalMovement := deltaX + deltaY
  let r2 :=
    if m1.options.mouseMovementThreshold < totalMovement then
      let mc := { m1 with mouseMovementCount := m1.mouseMovementCount + 1 }
      if mc.options.suspiciousActivityThreshold < mc.mouseMovementCount then
        addSuspiciousPattern ⟨"mouse", "Rapid mouse movement detected", now⟩
          now { mc with state := { mc.state with
            hasSuspiciousActivity := true } }
      else (mc, [])
    else (m1, [])
  let r3 :=
    if isUnnaturalMovement deltaX deltaY then
      addSuspiciousPattern ⟨"mouse", "Unnatural mouse movement detected", now⟩
        now r2.1
    else (r2.1, [])
  let m4 := { r3.1 with lastMousePosition := (x, y) }
  (m4, r2.2 ++ r3.2 ++ [.stateChange m4.state])

/-- `checkTypingPatterns()` of the later revision (as in the earlier one,
but `addSuspiciousPattern` now emits). -/
def checkTypingPatterns (now : Nat) (m : DetectionManager) :
    DetectionManager × List Emit :=
  match tsVal m.typingStartTime with
  | none => (m, [])
  | some start =>
    let timeElapsed : ℚ := ((now : ℚ) - (start : ℚ)) / 1000
    let charsPerMinute := jsMulPos (jsDiv (m.typingCharacterCount : ℚ) timeElapsed) 60
    let m1 := { m with state := { m.state with typingSpeed := charsPerMinute } }
    let r2 :=
      if jsGt charsPerMinute (m1.options.typingSpeedThreshold : ℚ) then
        let mr := { m1 with state := { m1.state with rapidTypingCount :=
          m1.state.rapidTypingCount + 1 } }
        if mr.options.rapidTypingThreshold ≤ mr.state.rapidTypingCount then
          addSuspiciousPattern ⟨"typing", "Rapid typing detected", now⟩ now
            { mr with state := { mr.state with hasSuspiciousActivity := true } }
        else (mr, [])
      else (m1, [])
    if (5 : ℚ) < timeElapsed then
      ({ r2.1 with typingStartTime := none, typingCharacterCount := 0 }, r2.2)
    else r2

/-- `handleKeyPress(event)` of the later revision. -/
def handleKeyPress (key : String) (ctrlKey metaKey : Bool) (now : Nat)
    (m : DetectionManager) : DetectionManager × List Emit :=
  let m0 := resetInactivityTimer m
  let m1 := { m0 with state := { m0.state with
    lastKeyPress := now
    keyboardActivity := true } }
  let m2 :=
    match tsVal m1.typingStartTime with
    | none => { m1 with typingStartTime := some now, typingCharacterCount := 0 }
    | some _ => m1
  let r3 :=
    if ctrlKey || metaKey then
      let ra :=
        if key == "v" || key == "c" || key == "a" then
          checkAIUsageThreshold { m2 with state := { m2.state with
            aiDetectionCount := m2.state.aiDetectionCount + 1 } }
        else (m2, [])
      let rb :=
        if key == "z" || key == "y" then
          addSuspiciousPattern ⟨"keyboard", "Undo/Redo operation detected",
            now⟩ now ra.1
        else (ra.1, [])
      (rb.1, ra.2 ++ rb.2)
    else (m2, [])
  let r4 :=
    if key.length == 1 then
      checkTypingPatterns now
        { r3.1 with typingCharacterCount := r3.1.typingCharacterCount + 1 }
    else (r3.1, [])
  -- `Tab`/`Enter` invoke `checkForPatternInBuffer`, a stub with no effect.
  (r4.1, r3.2 ++ r4.2 ++ [.stateChange r4.1.state])

/-- `checkForSuspiciousPatterns(text)` of the later revision: two plain
`String.includes` checks on the raw text (this function is no longer called
by any handler in this revision). -/
def checkForSuspiciousPatterns (text : String) (now : Nat)
    (m : DetectionManager) : DetectionManager × List Emit :=
  let tl := text.toList
  let (m1, es1) :=
    if isInfixB "```".toList tl || isInfixB "<code>".toList tl ||
        isInfixB "<pre>".toList tl then
      addSuspiciousPattern ⟨"code", "Code snippet detected in pasted content",
        now⟩ now m
    else (m, [])
  let (m2, es2) :=
    if isInfixB "ctrl+c".toList tl || isInfixB "ctrl+v".toList tl ||
        isInfixB "cmd+c".toList tl || isInfixB "cmd+v".toList tl then
      addSuspiciousPattern ⟨"shortcut", "AI tool shortcuts detected", now⟩
        now m1
    else (m1, [])
  (m2, es1 ++ es2)

/-- One tick of the periodic clipboard poll in `startAIUsageDetection`:
a successful non-empty read runs `checkForAIUsage` (its Boolean result is
discarded); a rejected read is swallowed by the `.catch(() => {})`
handler. -/
def pollTick (readResult : Except Unit String) (now : Nat)
    (m : DetectionManager) : DetectionManager × List Emit :=
  match readResult with
  | .ok text =>
    if truthyStr (some text) then
      let r := checkForAIUsage text now m
      (r.2.1, r.2.2)
    else (m, [])
  | .error _ => (m, [])

/-- `resetState()` of the later revision. -/
def resetState (now : Nat) (m : DetectionManager) :
    DetectionManager × List Emit :=
  let st := initialStateAt now
  ({ m with
    state := st
    mouseMovementCount := 0
    suspiciousActivityCount := 0
    typingStartTime := none
    typingCharacterCount := 0 }, [.stateChange st])

/-- The DOM/timer events the later revision's manager reacts to. -/
inductive Event where
  | visibility (visible : Bool) (now : Nat) : Event
  | focusWin : Event
  | blurWin : Event
  | screenFocusFire : Event
  | inactivityFire : Event
  | mouseMove (x y : Int) (now : Nat) : Event
  | keyPress (key : String) (ctrlKey metaKey : Bool) (now : Nat) : Event
  | pasteEv (cd : Option String) (target : Option TargetElem) (url : String)
      (now : Nat) : Event
  | copyEv (sel : Option String) (target : Option TargetElem) (url : String)
      (now : Nat) : Event
  | pollTickEv (readResult : Except Unit String) (now : Nat) : Event

/-- Dispatch one event to its handler.  A paste/copy handler that throws
aborts before any state mutation, so the manager is left as the `Thrown`
value records it. -/
def step (e : Event) (m : DetectionManager) : DetectionManager × List Emit :=
  match e with
  | .visibility visible now => handleVisibilityChange visible now m
  | .focusWin => handleScreenFocus m
  | .blurWin => handleScreenBlur m
  | .screenFocusFire => screenFocusTimerFire m
  | .inactivityFire => inactivityTimerFire m
  | .mouseMove x y now => handleMouseMove x y now m
  | .keyPress key c mk now => handleKeyPress key c mk now m
  | .pasteEv cd target url now =>
    match handlePaste cd target url now m with
    | .ok r => r
    | .error t => (t.mgr, t.emitted)
  | .copyEv sel target url now =>
    match handleCopy sel target url now m with
    | .ok r => r
    | .error t => (t.mgr, t.emitted)
  | .pollTickEv r now => pollTick r now m

end V2

namespace P1

/-!
The standalone `DetectionManager` variant of `src/unnamed/part_001`: a
minimal state with listeners notified on every change.  Its paste listener
assigns `hasAIUsage` the result of `detectAIPatterns` on every paste,
overwriting any previously latched `true`.
-/

/-- `DetectionState` of the `part_001` variant. -/
structure DetectionState where
  isTabActive : Bool
  hasAIUsage : Bool
  lastActivity : Nat
deriving DecidableEq, Repr

/-- The initial state literal, with `new Date()` taken at `now`. -/
def initialStateAt (now : Nat) : DetectionState where
  isTabActive := true
  hasAIUsage := false
  lastActivity := now

/-- `detectAIPatterns(text)`: every catalog regex is a case-insensitive
literal, so each `test` is case-insensitive substring containment
(note that `/AI/i` matches any text containing `"ai"`). -/
def detectAIPatterns (text : String) : Bool :=
  let patterns : List RePat :=
    [.sub "generated by", .sub "created by", .sub "powered by",
     .sub "assistant", .sub "ai"]
  patterns.any (fun p => rpTest p (lowerChars text))

/-- The `"visibilitychange"` listener: record the new visibility and
notify.  Notifications are returned as the list of states passed to the
listeners. -/
def visibilityListener (visible : Bool) (s : DetectionState) :
    DetectionState × List DetectionState :=
  let s1 := { s with isTabActive := visible }
  (s1, [s1])

/-- The `"paste"` listener: when `event.clipboardData` is present, assign
`hasAIUsage := detectAIPatterns(text)` (even when the result is `false`)
and notify. -/
def pasteListener (clipboardData : Option String) (s : DetectionState) :
    DetectionState × List DetectionState :=
  match clipboardData with
  | some text =>
    let s1 := { s with hasAIUsage := detectAIPatterns text }
    (s1, [s1])
  | none => (s, [])

/-- The `"keydown"` listener: refresh `lastActivity` and notify. -/
def keydownListener (now : Nat) (s : DetectionState) :
    DetectionState × List DetectionState :=
  let s1 := { s with lastActivity := now }
  (s1, [s1])

end P1

/-! ## Definitions used by the claim statements -/

/-- A paste/copy target that is a plain `<div>` (classified `"system"`). -/
def divTarget : V2.TargetElem := ⟨"DIV", "", "", "false", none⟩

/-- Six successive paste events of the benign text `"xy"` handled by the
later revision's manager (default options). -/
def sixPastes : V2.DetectionManager :=
  (List.range 6).foldl
    (fun m i => (V2.step (.pasteEv (some "xy") (some divTarget) "u" i) m).1)
    V2.initManager

/-- The earlier revision's manager after one printable keystroke at
t = 1000 ms: a typing window opened at 1000 (one character, elapsed time
zero, so the computed speed is `Infinity`, which already trips the
rapid-typing latch). -/
def c8m1 : V1.DetectionManager where
  state := {
    isTabActive := true
    hasAIUsage := false
    hasTabSwitch := false
    lastActiveTime := 0
    tabSwitchCount := 0
    aiDetectionCount := 0
    hasMultipleScreens := false
    hasScreenFocus := true
    hasSuspiciousActivity := true
    mousePosition := (0, 0)
    keyboardActivity := true
    lastMouseMove := 0
    lastKeyPress := 1000
    typingSpeed := .inf
    rapidTypingCount := 1
    clipboardHistory := []
    suspiciousPatterns := [⟨"typing", "Rapid typing detected", 1000⟩] }
  options := defaultOptions
  inactivityTimerArmed := true
  screenFocusTimerArmed := false
  lastMousePosition := (0, 0)
  mouseMovementCount := 0
  suspiciousActivityCount := 0
  typingStartTime := some 1000
  typingCharacterCount := 1

/-- After a second keystroke at t = 4000 ms (3 s later): the window still
runs, two characters over 3 s give 40 characters per minute. -/
def c8m2 : V1.DetectionManager :=
  { c8m1 with
    state := { c8m1.state with lastKeyPress := 4000, typingSpeed := .num 40 }
    typingCharacterCount := 2 }

/-- After a third keystroke at t = 6100 ms (only 2.1 s after the second):
5.1 s have elapsed since the window STARTED, so the code clears the typing
window even though no 5-second keystroke gap ever occurred. -/
def c8m3 : V1.DetectionManager :=
  { c8m1 with
    state := { c8m1.state with lastKeyPress := 6100, typingSpeed := .num (600 / 17) }
    typingStartTime := none
    typingCharacterCount := 0 }

/-- After a second keystroke at t = 1400 ms instead — the uniform
150-characters-per-60-seconds cadence (one keystroke per 400 ms): the
computed speed is 300 characters per minute, not ≈ 150. -/
def c8m1b : V1.DetectionManager :=
  { c8m1 with
    state := { c8m1.state with
      lastKeyPress := 1400
      typingSpeed := .num 300
      rapidTypingCount := 2 }
    typingCharacterCount := 2 }

/-- The AI-likeness score as the specification describes it: the number of
catalog entries whose phrase is contained (as a lowercase substring) in the
text, plus 2 when `typingSpeed` exceeds 150, plus 1 when `clipboardHistory`
is longer than 5. -/
def aiUsageScoreSpec (text : String) (st : V2.DetectionState) : Nat :=
  (V2.aiDetectionPatterns.filter (fun p => isInfixB p.toList (lowerChars text))).length
    + (if jsGt st.typingSpeed 150 then 2 else 0)
    + (if 5 < st.clipboardHistory.length then 1 else 0)

/-- The three derived flags of the earlier revision never fall from `true`
back to `false` between state `a` and state `b`. -/
def latchFlagsV1 (a b : V1.DetectionState) : Prop :=
  (a.hasAIUsage = true → b.hasAIUsage = true) ∧
  (a.hasSuspiciousActivity = true → b.hasSuspiciousActivity = true) ∧
  (a.hasMultipleScreens = true → b.hasMultipleScreens = true)

/-- The three derived flags of the later revision never fall from `true`
back to `false` between state `a` and state `b`. -/
def latchFlagsV2 (a b : V2.DetectionState) : Prop :=
  (a.hasAIUsage = true → b.hasAIUsage = true) ∧
  (a.hasSuspiciousActivity = true → b.hasSuspiciousActivity = true) ∧
  (a.hasMultipleScreens = true → b.hasMultipleScreens = true)

/-! ## Helper lemmas -/

/-- Appending a list with a known last element determines `getLast?`. -/
theorem getLastAppendOfSome {α : Type} (l1 : List α) {l2 : List α} {a : α}
    (h : l2.getLast? = some a) : (l1 ++ l2).getLast? = some a := by
  have hne : l2 ≠ [] := by
    intro he
    rw [he] at h
    exact Option.noConfusion h
  rw [List.getLast?_append_of_ne_nil l1 hne, h]

/-- The length of the one-character key string `"a"`. -/
theorem strLenA : ("a" : String).length = 1 := rfl

/-- `addSuspiciousPattern` (earlier revision) only rewrites
`state.suspiciousPatterns`. -/
theorem addSuspiciousPatternShapeV1 (t msg : String) (now : Nat)
    (m : V1.DetectionManager) :
    ∃ sp, V1.addSuspiciousPattern t msg now m =
      { m with state := { m.state with suspiciousPatterns := sp } } := by
  unfold V1.addSuspiciousPattern
  dsimp only
  split
  · exact ⟨m.state.suspiciousPatterns, rfl⟩
  · exact ⟨_, rfl⟩

/-- `checkAIUsageThreshold` (earlier revision) only rewrites
`state.hasAIUsage`, and never from `true` to `false`. -/
theorem checkAIUsageThresholdShapeV1 (m : V1.DetectionManager) :
    ∃ b es, V1.checkAIUsageThreshold m =
      ({ m with state := { m.state with hasAIUsage := b } }, es) ∧
      (m.state.hasAIUsage = true → b = true) := by
  unfold V1.checkAIUsageThreshold
  dsimp only
  split
  · exact ⟨true, _, rfl, fun _ => rfl⟩
  · exact ⟨m.state.hasAIUsage, [], rfl, fun h => h⟩

/-- `checkForAIUsage` (earlier revision) only rewrites
`state.aiDetectionCount` and `state.hasAIUsage`, the latter never from
`true` to `false`. -/
theorem checkForAIUsageShapeV1 (text : String) (m : V1.DetectionManager) :
    ∃ c b es, V1.checkForAIUsage text m =
      ({ m with state := { m.state with aiDetectionCount := c, hasAIUsage := b } }, es) ∧
      (m.state.hasAIUsage = true → b = true) := by
  unfold V1.checkForAIUsage
  dsimp only
  split
  · obtain ⟨b, es, heq, hmono⟩ := checkAIUsageThresholdShapeV1
      { m with state := { m.state with aiDetectionCount :=
        m.state.aiDetectionCount + 1 } }
    exact ⟨m.state.aiDetectionCount + 1, b, es, heq, hmono⟩
  · exact ⟨m.state.aiDetectionCount, m.state.hasAIUsage, [], rfl, fun h => h⟩

/-- Folding `addSuspiciousPattern "code"` entries (earlier revision) only
rewrites `state.suspiciousPatterns`. -/
theorem foldlAddSuspiciousPatternShapeV1 (now : Nat) (ps : List SuspPat) :
    ∀ m : V1.DetectionManager, ∃ sp,
      ps.foldl (fun acc p => V1.addSuspiciousPattern "code" p.src now acc) m =
        { m with state := { m.state with suspiciousPatterns := sp } } := by
  induction ps with
  | nil => exact fun m => ⟨m.state.suspiciousPatterns, rfl⟩
  | cons p ps ih =>
    intro m
    obtain ⟨sp1, h1⟩ := addSuspiciousPatternShapeV1 "code" p.src now m
    obtain ⟨sp2, h2⟩ := ih { m with state := { m.state with
      suspiciousPatterns := sp1 } }
    refine ⟨sp2, ?_⟩
    rw [List.foldl_cons, h1]
    exact h2

/-- `checkForSuspiciousPatterns` (earlier revision) only rewrites
`state.suspiciousPatterns` and `state.hasSuspiciousActivity`, the latter
never from `true` to `false`. -/
theorem checkForSuspiciousPatternsShapeV1 (text : String) (now : Nat)
    (m : V1.DetectionManager) :
    ∃ sp b, V1.checkForSuspiciousPatterns text now m =
      { m with state := { m.state with suspiciousPatterns := sp, hasSuspiciousActivity := b } } ∧
      (m.state.hasSuspiciousActivity = true → b = true) := by
  unfold V1.checkForSuspiciousPatterns
  dsimp only
  split
  · obtain ⟨sp1, h1⟩ := foldlAddSuspiciousPatternShapeV1 now
      (V1.suspiciousPatterns.filter (fun p => p.test (lowerChars text))) m
    rw [h1]
    split
    · exact ⟨sp1, true, rfl, fun _ => rfl⟩
    · exact ⟨sp1, m.state.hasSuspiciousActivity, rfl, fun h => h⟩
  · exact ⟨m.state.suspiciousPatterns, m.state.hasSuspiciousActivity, rfl,
      fun h => h⟩

/-- `checkSuspiciousActivity` (earlier revision) only rewrites
`state.hasSuspiciousActivity`. -/
theorem checkSuspiciousActivityShapeV1 (m : V1.DetectionManager) :
    ∃ b es, V1.checkSuspiciousActivity m =
      ({ m with state := { m.state with hasSuspiciousActivity := b } }, es) ∧
      (m.state.hasSuspiciousActivity = true → b = true) := by
  unfold V1.checkSuspiciousActivity
  dsimp only
  split
  · exact ⟨true, _, rfl, fun _ => rfl⟩
  · exact ⟨m.state.hasSuspiciousActivity, [], rfl, fun h => h⟩

/-! ## Claim theorems -/

/-- C1 (code bug): in the later revision, `handlePaste` appends to
`clipboardHistory` with no eviction, so six pastes under the default
`clipboardHistorySize = 5` leave a history of length 6 — the documented
bound is violated. -/
theorem c1_clipboard_history_overflow :
    V2.initManager.options.clipboardHistorySize = 5 ∧
    sixPastes.options.clipboardHistorySize = 5 ∧
    sixPastes.state.clipboardHistory.length = 6 := by
  refine ⟨rfl, ?_, ?_⟩ <;> decide

/-- `handleVisibilityChange` (earlier revision) on a document becoming
hidden: bump `tabSwitchCount`, set `hasTabSwitch`, refresh
`lastActiveTime`, possibly latch `hasSuspiciousActivity`, clear
`isTabActive`. -/
theorem handleVisibilityHiddenShapeV1 (now : Nat) (m : V1.DetectionManager) :
    ∃ b es, V1.handleVisibilityChange false now m =
      ({ m with state := { m.state with tabSwitchCount := m.state.tabSwitchCount + 1, hasTabSwitch := true, lastActiveTime := now, hasSuspiciousActivity := b, isTabActive := false } }, es) ∧
      (m.state.hasSuspiciousActivity = true → b = true) := by
  obtain ⟨b, es, hb, hmono⟩ := checkSuspiciousActivityShapeV1 { m with state :=
    { m.state with
      tabSwitchCount := m.state.tabSwitchCount + 1
      hasTabSwitch := true
      lastActiveTime := now } }
  refine ⟨b, es ++ [.stateChange { m.state with tabSwitchCount := m.state.tabSwitchCount + 1, hasTabSwitch := true, lastActiveTime := now, hasSuspiciousActivity := b }], ?_, hmono⟩
  unfold V1.handleVisibilityChange
  dsimp only
  rw [hb]
  rfl

/-- C7 counterexample: the later revision's visibility handler never
writes `isTabActive`: after the document becomes hidden, `isTabActive` is
still `true`, not reflecting the new visibility state as the claim
requires. -/
theorem c7_counterexample :
    (V2.handleVisibilityChange false 1000 V2.initManager).1.state.isTabActive = true := by
  rfl

/-- C7 (amended): on a visibility change to hidden the later revision's
handler increments `screenInactiveCount`, clears `hasScreenFocus` and
refreshes `lastActiveTime` while leaving `isTabActive` unchanged; on any
visibility change it sets `hasScreenFocus` to the visibility and refreshes
`lastActiveTime`.  The earlier revision's handler increments
`tabSwitchCount` and refreshes `lastActiveTime` on hidden and sets
`isTabActive` to the visibility on every event, leaving `hasScreenFocus`
unchanged. -/
theorem c7_visibility_handler_effects (visible : Bool) (now : Nat)
    (m2 : V2.DetectionManager) (m1 : V1.DetectionManager) :
    ((V2.handleVisibilityChange false now m2).1.state.screenInactiveCount =
        m2.state.screenInactiveCount + 1 ∧
      (V2.handleVisibilityChange false now m2).1.state.hasScreenFocus = false ∧
      (V2.handleVisibilityChange false now m2).1.state.lastActiveTime = now ∧
      (V2.handleVisibilityChange false now m2).1.state.isTabActive =
        m2.state.isTabActive) ∧
    ((V2.handleVisibilityChange visible now m2).1.state.hasScreenFocus = visible ∧
      (V2.handleVisibilityChange visible now m2).1.state.lastActiveTime = now) ∧
    ((V1.handleVisibilityChange false now m1).1.state.tabSwitchCount =
        m1.state.tabSwitchCount + 1 ∧
      (V1.handleVisibilityChange false now m1).1.state.lastActiveTime = now ∧
      (V1.handleVisibilityChange visible now m1).1.state.isTabActive = visible ∧
      (V1.handleVisibilityChange visible now m1).1.state.hasScreenFocus =
        m1.state.hasScreenFocus) := by
  obtain ⟨b, es, hshape, _⟩ := handleVisibilityHiddenShapeV1 now m1
  refine ⟨⟨rfl, rfl, rfl, rfl⟩, ⟨?_, ?_⟩, ⟨?_, ?_, ?_, ?_⟩⟩
  · cases visible <;> rfl
  · cases visible <;> rfl
  · rw [hshape]
  · rw [hshape]
  · cases visible
    · rw [hshape]
    · rfl
  · cases visible
    · rw [hshape]
    · rfl

/-- C9 counterexample: the later revision's paste handler dereferences
`event.target` without a guard: a paste of non-empty text whose target is
absent throws a `TypeError` instead of returning normally. -/
theorem c9_counterexample :
    V2.handlePaste (some "x") none "u" 0 V2.initManager =
      .error ⟨V2.initManager, []⟩ := by
  rfl

/-- C9 (amended): the paste and copy handlers of the later revision return
normally whenever the event carries a target element, and the periodic
clipboard poll of both revisions swallows a rejected clipboard read — but
(per the counterexample) a missing target makes paste/copy throw. -/
theorem c9_handlers_error_behavior :
    (∀ cd (t : V2.TargetElem) url now m, ∃ r,
      V2.handlePaste cd (some t) url now m = .ok r) ∧
    (∀ sel (t : V2.TargetElem) url now m, ∃ r,
      V2.handleCopy sel (some t) url now m = .ok r) ∧
    (∀ e now m, V2.pollTick (.error e) now m = (m, [])) ∧
    (∀ e m, V1.pollTick (.error e) m = (m, [])) := by
  refine ⟨?_, ?_, fun e now m => rfl, fun e m => rfl⟩
  · intro cd t url now m
    unfold V2.handlePaste
    split
    · exact ⟨_, rfl⟩
    · exact ⟨_, rfl⟩
  · intro sel t url now m
    unfold V2.handleCopy
    split
    · exact ⟨_, rfl⟩
    · exact ⟨_, rfl⟩

/-- C10: a mouse-move event whose coordinates equal the previously
recorded pointer position has `deltaX = deltaY = 0`, `isUnnaturalMovement`
classifies it as unnatural (a zero delta is both axis-aligned and equal in
both components), and — absent a same-typed entry within the last
5000 ms — the handler records a `("mouse", "Unnatural mouse movement
detected")` suspicious-pattern entry even though the pointer did not
move. -/
theorem c10_zero_delta_unnatural (now : Nat) (m : V1.DetectionManager)
    (hnodup : m.state.suspiciousPatterns.find? (fun p =>
      p.type == "mouse" && p.message == "Unnatural mouse movement detected" &&
      decide ((now : Int) - (p.timestamp : Int) < 5000)) = none) :
    V1.isUnnaturalMovement 0 0 = true ∧
    ((V1.handleMouseMove m.lastMousePosition.1 m.lastMousePosition.2 now
      m).1).state.suspiciousPatterns =
      m.state.suspiciousPatterns ++
        [⟨"mouse", "Unnatural mouse movement detected", now⟩] := by
  refine ⟨rfl, ?_⟩
  unfold V1.handleMouseMove V1.resetInactivityTimer
  simp only [sub_self, Int.natAbs_zero, Nat.add_zero, Nat.not_lt_zero,
    if_false]
  unfold V1.addSuspiciousPattern
  simp only [V1.isUnnaturalMovement, beq_self_eq_true, Bool.true_or, if_true]
  rw [hnodup]

/-- C10 witness: the concrete instance at the freshly constructed manager
(empty pattern list) and time 7. -/
theorem c10_witness :
    V1.isUnnaturalMovement 0 0 = true ∧
    ((V1.handleMouseMove V1.initManager.lastMousePosition.1
      V1.initManager.lastMousePosition.2 7 V1.initManager).1).state.suspiciousPatterns =
      V1.initManager.state.suspiciousPatterns ++
        [⟨"mouse", "Unnatural mouse movement detected", 7⟩] :=
  c10_zero_delta_unnatural 7 V1.initManager rfl

/-- `checkForSuspiciousPatterns` (earlier revision) never writes
`state.hasAIUsage`. -/
theorem checkForSuspiciousPatternsHasAIUsageV1 (text : String) (now : Nat)
    (m : V1.DetectionManager) :
    (V1.checkForSuspiciousPatterns text now m).state.hasAIUsage =
      m.state.hasAIUsage := by
  obtain ⟨sp, b, h, _⟩ := checkForSuspiciousPatternsShapeV1 text now m
  rw [h]

/-- `checkForAIUsage` (earlier revision) latches `hasAIUsage` as soon as
some catalog pattern matches and the bumped `aiDetectionCount` reaches the
threshold. -/
theorem checkForAIUsageSetsFlagV1 (text : String) (m : V1.DetectionManager)
    (hany : V1.aiDetectionPatterns.any (fun p => rpTest p (lowerChars text)) = true)
    (hthr : m.options.aiDetectionThreshold ≤ m.state.aiDetectionCount + 1) :
    ((V1.checkForAIUsage text m).1).state.hasAIUsage = true := by
  unfold V1.checkForAIUsage V1.checkAIUsageThreshold
  simp only [hany, eq_self_iff_true, if_true]
  rw [if_pos hthr]

/-- C2 counterexample: in the later revision, with the default
`aiDetectionThreshold = 1` and no prior signals (`typingSpeed` 0, empty
`clipboardHistory`), a single paste of `"chatgpt"` leaves `hasAIUsage`
`false`: the paste handler requires an AI score of at least 3, and the
single matched phrase scores 1. -/
theorem c2_counterexample :
    V2.initManager.options.aiDetectionThreshold = 1 ∧
    V2.initManager.state.typingSpeed = .num 0 ∧
    V2.initManager.state.clipboardHistory = [] ∧
    (V2.step (.pasteEv (some "chatgpt") (some divTarget) "u" 0)
      V2.initManager).1.state.hasAIUsage = false := by
  refine ⟨rfl, rfl, rfl, ?_⟩
  decide

/-- C2 (amended): in the earlier revision the claim holds: with the
default options (`aiDetectionThreshold = 1`) and no prior signals, a
single paste whose non-empty text contains the substring `"chatgpt"`
(case-insensitively) makes `hasAIUsage` `true` immediately. -/
theorem c2_early_paste_chatgpt_sets_hasAIUsage (text : String) (now : Nat)
    (htext : text ≠ "")
    (hsub : isInfixB "chatgpt".toList (lowerChars text) = true) :
    ((V1.handlePaste (some text) now V1.initManager).1).state.hasAIUsage = true := by
  have htr : truthyStr (some text) = true := by simp [truthyStr, htext]
  have hany : V1.aiDetectionPatterns.any (fun p => rpTest p (lowerChars text)) = true := by
    have h0 : rpTest (RePat.sub "chatgpt") (lowerChars text) = true := hsub
    simp only [V1.aiDetectionPatterns, List.any_cons, h0, Bool.true_or]
  unfold V1.handlePaste
  simp only [htr, eq_self_iff_true, if_true]
  rw [checkForSuspiciousPatternsHasAIUsageV1]
  exact checkForAIUsageSetsFlagV1 text _ hany (Nat.le_refl 1)

/-- C2 witness: the concrete paste of exactly `"chatgpt"` at time 0. -/
theorem c2_witness :
    ((V1.handlePaste (some "chatgpt") 0 V1.initManager).1).state.hasAIUsage = true :=
  c2_early_paste_chatgpt_sets_hasAIUsage "chatgpt" 0 (by decide) (by decide)

/-- C6 counterexample: the earlier revision's paste handler mutates the
state (it records the pasted text in `clipboardHistory`) and returns
without emitting anything when the text triggers no detection check. -/
theorem c6_counterexample :
    (V1.handlePaste (some "zz") 0 V1.initManager).1.state.clipboardHistory = ["zz"] ∧
    V1.initManager.state.clipboardHistory = [] ∧
    (V1.handlePaste (some "zz") 0 V1.initManager).2 = [] := by
  refine ⟨?_, rfl, ?_⟩ <;> decide

/-- C6 (amended): in the later revision the cited handlers do end with a
full-state snapshot: `handlePaste` (with a present target) returns
normally and its last emission is a `stateChange` carrying its final
state, and `handleVisibilityChange` emits exactly one `stateChange`
carrying its final state. -/
theorem c6_later_handlers_emit_snapshot :
    (∀ cd (t : V2.TargetElem) url now m, ∃ m' es,
      V2.handlePaste cd (some t) url now m = .ok (m', es) ∧
      es.getLast? = some (.stateChange m'.state)) ∧
    (∀ visible now (m : V2.DetectionManager),
      (V2.handleVisibilityChange visible now m).2 =
        [.stateChange (V2.handleVisibilityChange visible now m).1.state]) := by
  constructor
  · intro cd t url now m
    unfold V2.handlePaste
    dsimp only
    split
    · refine ⟨_, _, rfl, getLastAppendOfSome _ ?_⟩
      rfl
    · exact ⟨_, _, rfl, rfl⟩
  · intro visible now m
    rfl

/-- First keystroke of the burst (t = 1000 ms): it opens the typing
window; elapsed time is zero so the computed speed is `Infinity`. -/
theorem c8Step1 :
    (V1.handleKeyPress "a" false false 1000 V1.initManager).1 = c8m1 := by
  norm_num [V1.handleKeyPress, V1.checkTypingPatterns, V1.addSuspiciousPattern,
    V1.checkAIUsageThreshold, V1.resetInactivityTimer, V1.initManager,
    V1.initialStateAt, defaultOptions, tsVal, jsDiv, jsMulPos, jsGt, strLenA,
    c8m1]

/-- Second keystroke at t = 4000 ms: the window continues (3 s elapsed,
40 characters per minute). -/
theorem c8Step2 :
    (V1.handleKeyPress "a" false false 4000 c8m1).1 = c8m2 := by
  norm_num [V1.handleKeyPress, V1.checkTypingPatterns, V1.addSuspiciousPattern,
    V1.checkAIUsageThreshold, V1.resetInactivityTimer, defaultOptions,
    tsVal, jsDiv, jsMulPos, jsGt, strLenA, c8m1, c8m2]

/-- Third keystroke at t = 6100 ms, only 2100 ms after the second: the
code clears the typing window because 5.1 s have elapsed since the window
started. -/
theorem c8Step3 :
    (V1.handleKeyPress "a" false false 6100 c8m2).1 = c8m3 := by
  norm_num [V1.handleKeyPress, V1.checkTypingPatterns, V1.addSuspiciousPattern,
    V1.checkAIUsageThreshold, V1.resetInactivityTimer, defaultOptions,
    tsVal, jsDiv, jsMulPos, jsGt, strLenA, c8m1, c8m2, c8m3]

/-- Second keystroke at t = 1400 ms instead (the uniform
150-characters-over-60-seconds cadence): computed speed 300 CPM. -/
theorem c8Step2Uniform :
    (V1.handleKeyPress "a" false false 1400 c8m1).1 = c8m1b := by
  norm_num [V1.handleKeyPress, V1.checkTypingPatterns, V1.addSuspiciousPattern,
    V1.checkAIUsageThreshold, V1.resetInactivityTimer, defaultOptions,
    tsVal, jsDiv, jsMulPos, jsGt, strLenA, c8m1, c8m1b]

/-- C8 (code bug): the typing-session window does NOT reset only after 5
seconds without keystrokes — `checkTypingPatterns` clears it once 5
seconds have elapsed since the window STARTED, keystrokes or not (the
source comment says "Reset typing measurement after 5 seconds of
inactivity").  Keystrokes at 1000, 4000 and 6100 ms (gaps 3000 and
2100 ms, both far below 5 s) leave the window cleared after the third.
And at the uniform 150-characters-per-60-seconds cadence the computed
speed is 300 CPM at the second keystroke (`Infinity` at the first), not
≈ 150. -/
theorem c8_typing_window_reset_bug :
    (V1.handleKeyPress "a" false false 4000
        (V1.handleKeyPress "a" false false 1000 V1.initManager).1).1.typingStartTime =
      some 1000 ∧
    (V1.handleKeyPress "a" false false 6100
        (V1.handleKeyPress "a" false false 4000
          (V1.handleKeyPress "a" false false 1000
            V1.initManager).1).1).1.typingStartTime = none ∧
    (V1.handleKeyPress "a" false false 6100
        (V1.handleKeyPress "a" false false 4000
          (V1.handleKeyPress "a" false false 1000
            V1.initManager).1).1).1.typingCharacterCount = 0 ∧
    (V1.handleKeyPress "a" false false 1000
        V1.initManager).1.state.typingSpeed = .inf ∧
    (V1.handleKeyPress "a" false false 1400
        (V1.handleKeyPress "a" false false 1000
          V1.initManager).1).1.state.typingSpeed = .num 300 := by
  rw [c8Step1, c8Step2, c8Step3, c8Step2Uniform]
  exact ⟨rfl, rfl, rfl, rfl, rfl⟩

/-- The match counter accumulated by `checkForAIUsage`'s scan equals the
number of catalog entries whose phrase matches. -/
theorem foldlCountMatches (pred : String → Bool) :
    ∀ (l : List String) (n : Nat) (acc : List String),
      (l.foldl (fun (a : Nat × List String) p =>
        if pred p then (a.1 + 1, a.2 ++ [p]) else a) (n, acc)).1 =
      n + (l.filter pred).length := by
  intro l
  induction l with
  | nil => intro n acc; simp
  | cons x xs ih =>
    intro n acc
    cases h : pred x
    · simp [List.foldl_cons, h, ih]
    · simp [List.foldl_cons, h, ih, Nat.add_assoc, Nat.add_comm 1]

/-- C4: the later revision's AI-usage check returns `true` exactly when
the score described by the specification — catalog-entry substring matches
plus 2 for `typingSpeed > 150` plus 1 for a clipboard history longer than
5 — reaches 3. -/
theorem c4_ai_score_spec (text : String) (now : Nat)
    (m : V2.DetectionManager) :
    (V2.checkForAIUsage text now m).1 =
      decide (3 ≤ aiUsageScoreSpec text m.state) := by
  unfold V2.checkForAIUsage aiUsageScoreSpec
  dsimp only
  rw [foldlCountMatches]
  split_ifs <;> (rw [decide_eq_decide]; omega)

/-- `checkForAIUsage` (earlier revision) preserves the options. -/
theorem checkForAIUsageOptionsV1 (text : String) (m : V1.DetectionManager) :
    ((V1.checkForAIUsage text m).1).options = m.options := by
  obtain ⟨c, b, es, h, _⟩ := checkForAIUsageShapeV1 text m
  rw [h]

/-- `checkForAIUsage` (earlier revision) preserves
`state.suspiciousPatterns`. -/
theorem checkForAIUsageSuspPatternsV1 (text : String)
    (m : V1.DetectionManager) :
    ((V1.checkForAIUsage text m).1).state.suspiciousPatterns =
      m.state.suspiciousPatterns := by
  obtain ⟨c, b, es, h, _⟩ := checkForAIUsageShapeV1 text m
  rw [h]

/-- The manager produced by the earlier revision's paste handler is the
suspicious-pattern check applied after the AI check on the
history-updated manager. -/
theorem handlePasteManagerV1 (text : String) (now : Nat)
    (m : V1.DetectionManager) (htext : text ≠ "") :
    (V1.handlePaste (some text) now m).1 =
      V1.checkForSuspiciousPatterns text now
        ((V1.checkForAIUsage text { m with state := { m.state with
          clipboardHistory :=
            if m.options.clipboardHistorySize < (text :: m.state.clipboardHistory).length
            then (text :: m.state.clipboardHistory).dropLast
            else text :: m.state.clipboardHistory } }).1) := by
  have htr : truthyStr (some text) = true := by simp [truthyStr, htext]
  unfold V1.handlePaste
  simp only [htr, eq_self_iff_true, if_true]
  rfl

/-- `checkForSuspiciousPatterns` (earlier revision) on a manager with an
empty pattern list, a threshold of 2, and a text matching exactly two
distinct catalog entries: it records exactly the two entries and latches
`hasSuspiciousActivity`. -/
theorem checkSuspTwoV1 (text : String) (now : Nat)
    (mm : V1.DetectionManager)
    (hopts : mm.options.patternDetectionThreshold = 2)
    (hempty : mm.state.suspiciousPatterns = [])
    (s₁ s₂ : String)
    (hfilter : (V1.suspiciousPatterns.filter
      (fun p => p.test (lowerChars text))).map (fun p => p.src) = [s₁, s₂])
    (hdistinct : s₁ ≠ s₂) :
    (V1.checkForSuspiciousPatterns text now mm).state.suspiciousPatterns =
      [⟨"code", s₁, now⟩, ⟨"code", s₂, now⟩] ∧
    (V1.checkForSuspiciousPatterns text now mm).state.hasSuspiciousActivity = true := by
  obtain ⟨p₁, p₂, hf, hs1, hs2⟩ : ∃ p₁ p₂,
      V1.suspiciousPatterns.filter (fun p => p.test (lowerChars text)) = [p₁, p₂] ∧
      p₁.src = s₁ ∧ p₂.src = s₂ := by
    rcases hF : V1.suspiciousPatterns.filter (fun p => p.test (lowerChars text)) with
      _ | ⟨q₁, _ | ⟨q₂, _ | ⟨q₃, rest⟩⟩⟩
    · rw [hF] at hfilter; simp at hfilter
    · rw [hF] at hfilter; simp at hfilter
    · rw [hF] at hfilter
      simp only [List.map_cons, List.map_nil, List.cons.injEq, and_true] at hfilter
      exact ⟨q₁, q₂, hF, hfilter.1, hfilter.2⟩
    · rw [hF] at hfilter; simp at hfilter
  have hAdd1 : V1.addSuspiciousPattern "code" p₁.src now mm =
      { mm with state := { mm.state with
        suspiciousPatterns := [⟨"code", p₁.src, now⟩] } } := by
    unfold V1.addSuspiciousPattern
    rw [hempty]
    rfl
  have hbe : (p₁.src == p₂.src) = false := by
    rw [hs1, hs2]
    exact beq_eq_false_iff_ne.mpr hdistinct
  have hAdd2 : V1.addSuspiciousPattern "code" p₂.src now
      { mm with state := { mm.state with
        suspiciousPatterns := [⟨"code", p₁.src, now⟩] } } =
      { mm with state := { mm.state with
        suspiciousPatterns := [⟨"code", p₁.src, now⟩, ⟨"code", p₂.src, now⟩] } } := by
    unfold V1.addSuspiciousPattern
    simp only [List.find?, hbe, Bool.and_false, Bool.false_and,
      beq_self_eq_true, Bool.true_and, Bool.and_true]
    rfl
  unfold V1.checkForSuspiciousPatterns
  rw [hf]
  rw [if_pos (by simp : 0 < ([p₁, p₂] : List SuspPat).length)]
  simp only [List.foldl_cons, List.foldl_nil]
  rw [hAdd1, hAdd2]
  rw [if_pos (by simp [hopts])]
  exact ⟨by rw [hs1, hs2], rfl⟩

/-- C3 counterexample: in the later revision no handler calls
`checkForSuspiciousPatterns` — the paste handler runs only the AI check —
so a single paste of `"big o graph"`, whose text matches exactly the two
distinct catalog entries `/big o/i` and `/graph/i` (the later revision
declares the identical regex catalog), records no suspicious-pattern
entry and leaves `hasSuspiciousActivity` `false` even though
`patternDetectionThreshold = 2`. -/
theorem c3_counterexample :
    (V1.suspiciousPatterns.filter
      (fun p => p.test (lowerChars "big o graph"))).map (fun p => p.src) =
      ["/big o/i", "/graph/i"] ∧
    V2.initManager.options.patternDetectionThreshold = 2 ∧
    (V2.step (.pasteEv (some "big o graph") (some divTarget) "u" 0)
      V2.initManager).1.state.suspiciousPatterns = [] ∧
    (V2.step (.pasteEv (some "big o graph") (some divTarget) "u" 0)
      V2.initManager).1.state.hasSuspiciousActivity = false := by
  refine ⟨?_, rfl, ?_, ?_⟩ <;> decide

/-- C3 (amended, earlier revision): with `patternDetectionThreshold = 2`
and an empty pattern list, a single paste whose text matches exactly two
distinct suspicious-pattern catalog entries records the two
`("code", toString)` entries and latches `hasSuspiciousActivity`; and a
further candidate with the same `(type, message)` as one recorded within
the previous 5000 ms is discarded (`suspiciousPatterns` gains no
duplicate entry). -/
theorem c3_two_patterns_latch_and_dedup (text : String) (now t2 : Nat)
    (m : V1.DetectionManager)
    (hopts : m.options.patternDetectionThreshold = 2)
    (hempty : m.state.suspiciousPatterns = [])
    (htext : text ≠ "")
    (s₁ s₂ : String)
    (hfilter : (V1.suspiciousPatterns.filter
      (fun p => p.test (lowerChars text))).map (fun p => p.src) = [s₁, s₂])
    (hdistinct : s₁ ≠ s₂)
    (hrecent : (t2 : Int) - (now : Int) < 5000) :
    ((V1.handlePaste (some text) now m).1).state.suspiciousPatterns =
      [⟨"code", s₁, now⟩, ⟨"code", s₂, now⟩] ∧
    ((V1.handlePaste (some text) now m).1).state.hasSuspiciousActivity = true ∧
    (V1.addSuspiciousPattern "code" s₁ t2
      ((V1.handlePaste (some text) now m).1)).state.suspiciousPatterns =
      ((V1.handlePaste (some text) now m).1).state.suspiciousPatterns := by
  rw [handlePasteManagerV1 text now m htext]
  have hopts2 : ((V1.checkForAIUsage text { m with state := { m.state with
      clipboardHistory :=
        if m.options.clipboardHistorySize < (text :: m.state.clipboardHistory).length
        then (text :: m.state.clipboardHistory).dropLast
        else text :: m.state.clipboardHistory } }).1).options.patternDetectionThreshold = 2 := by
    rw [checkForAIUsageOptionsV1]
    exact hopts
  have hempty2 : ((V1.checkForAIUsage text { m with state := { m.state with
      clipboardHistory :=
        if m.options.clipboardHistorySize < (text :: m.state.clipboardHistory).length
        then (text :: m.state.clipboardHistory).dropLast
        else text :: m.state.clipboardHistory } }).1).state.suspiciousPatterns = [] := by
    rw [checkForAIUsageSuspPatternsV1]
    exact hempty
  obtain ⟨hA, hB⟩ := checkSuspTwoV1 text now _ hopts2 hempty2 s₁ s₂ hfilter hdistinct
  refine ⟨hA, hB, ?_⟩
  unfold V1.addSuspiciousPattern
  rw [hA]
  have hdec : (decide ((t2 : Int) - (now : Int) < 5000)) = true := by
    exact decide_eq_true hrecent
  simp only [List.find?, beq_self_eq_true, Bool.true_and, hdec, Bool.and_true]
  exact hA

/-- C3 witness: pasting `"big o graph"` (matching exactly `/big o/i` and
`/graph/i`) into a fresh manager at time 0, with a duplicate candidate
4000 ms later. -/
theorem c3_witness :
    ((V1.handlePaste (some "big o graph") 0 V1.initManager).1).state.suspiciousPatterns =
      [⟨"code", "/big o/i", 0⟩, ⟨"code", "/graph/i", 0⟩] ∧
    ((V1.handlePaste (some "big o graph") 0 V1.initManager).1).state.hasSuspiciousActivity = true ∧
    (V1.addSuspiciousPattern "code" "/big o/i" 4000
      ((V1.handlePaste (some "big o graph") 0 V1.initManager).1)).state.suspiciousPatterns =
      ((V1.handlePaste (some "big o graph") 0 V1.initManager).1).state.suspiciousPatterns :=
  c3_two_patterns_latch_and_dedup "big o graph" 0 4000 V1.initManager rfl rfl
    (by decide) "/big o/i" "/graph/i" (by decide) (by decide) (by decide)

/-- `latchFlagsV1` is reflexive. -/
theorem latchV1Refl (a : V1.DetectionState) : latchFlagsV1 a a :=
  ⟨fun h => h, fun h => h, fun h => h⟩

/-- `latchFlagsV1` is transitive. -/
theorem latchV1Trans {a b c : V1.DetectionState} (h1 : latchFlagsV1 a b)
    (h2 : latchFlagsV1 b c) : latchFlagsV1 a c :=
  ⟨fun h => h2.1 (h1.1 h), fun h => h2.2.1 (h1.2.1 h),
    fun h => h2.2.2 (h1.2.2 h)⟩

/-- `addSuspiciousPattern` (earlier revision) never lowers a latched flag. -/
theorem addSuspiciousPatternLatchV1 (t msg : String) (now : Nat)
    (m : V1.DetectionManager) :
    latchFlagsV1 m.state (V1.addSuspiciousPattern t msg now m).state := by
  obtain ⟨sp, h⟩ := addSuspiciousPatternShapeV1 t msg now m
  rw [h]
  exact ⟨fun h => h, fun h => h, fun h => h⟩

/-- `checkAIUsageThreshold` (earlier revision) never lowers a latched flag. -/
theorem checkAIUsageThresholdLatchV1 (m : V1.DetectionManager) :
    latchFlagsV1 m.state ((V1.checkAIUsageThreshold m).1).state := by
  obtain ⟨b, es, h, hm⟩ := checkAIUsageThresholdShapeV1 m
  rw [h]
  exact ⟨hm, fun h => h, fun h => h⟩

/-- `checkForAIUsage` (earlier revision) never lowers a latched flag. -/
theorem checkForAIUsageLatchV1 (text : String) (m : V1.DetectionManager) :
    latchFlagsV1 m.state ((V1.checkForAIUsage text m).1).state := by
  obtain ⟨c, b, es, h, hm⟩ := checkForAIUsageShapeV1 text m
  rw [h]
  exact ⟨hm, fun h => h, fun h => h⟩

/-- `checkForSuspiciousPatterns` (earlier revision) never lowers a latched
flag. -/
theorem checkForSuspiciousPatternsLatchV1 (text : String) (now : Nat)
    (m : V1.DetectionManager) :
    latchFlagsV1 m.state (V1.checkForSuspiciousPatterns text now m).state := by
  obtain ⟨sp, b, h, hm⟩ := checkForSuspiciousPatternsShapeV1 text now m
  rw [h]
  exact ⟨fun h => h, hm, fun h => h⟩

/-- `checkTypingPatterns` (earlier revision) never lowers a latched flag. -/
theorem checkTypingPatternsLatchV1 (now : Nat) (m : V1.DetectionManager) :
    latchFlagsV1 m.state (V1.checkTypingPatterns now m).state := by
  unfold V1.checkTypingPatterns
  split
  · exact latchV1Refl _
  · dsimp only
    repeat' split
    all_goals
      first
        | exact ⟨fun h => h, fun h => h, fun h => h⟩
        | (refine latchV1Trans ?_ (addSuspiciousPatternLatchV1 _ _ _ _)
           exact ⟨fun h => h, fun _ => rfl, fun h => h⟩)

/-- `handleMouseMove` (earlier revision) never lowers a latched flag. -/
theorem handleMouseMoveLatchV1 (x y : Int) (now : Nat)
    (m : V1.DetectionManager) :
    latchFlagsV1 m.state ((V1.handleMouseMove x y now m).1).state := by
  unfold V1.handleMouseMove V1.resetInactivityTimer
  dsimp only
  repeat' split
  all_goals
    first
      | exact ⟨fun h => h, fun h => h, fun h => h⟩
      | (refine latchV1Trans ?_ (addSuspiciousPatternLatchV1 _ _ _ _)
         first
           | exact ⟨fun h => h, fun h => h, fun h => h⟩
           | exact ⟨fun h => h, fun _ => rfl, fun h => h⟩
           | (refine latchV1Trans ?_ (addSuspiciousPatternLatchV1 _ _ _ _)
              first
                | exact ⟨fun h => h, fun h => h, fun h => h⟩
                | exact ⟨fun h => h, fun _ => rfl, fun h => h⟩))

/-- `handleKeyPress` (earlier revision) never lowers a latched flag. -/
theorem handleKeyPressLatchV1 (key : String) (c mk : Bool) (now : Nat)
    (m : V1.DetectionManager) :
    latchFlagsV1 m.state ((V1.handleKeyPress key c mk now m).1).state := by
  unfold V1.handleKeyPress V1.resetInactivityTimer
  dsimp only
  repeat' split
  all_goals
    first
      | exact ⟨fun h => h, fun h => h, fun h => h⟩
      | (refine latchV1Trans ?_ (checkAIUsageThresholdLatchV1 _)
         exact ⟨fun h => h, fun h => h, fun h => h⟩)
      | (refine latchV1Trans ?_ (addSuspiciousPatternLatchV1 _ _ _ _)
         first
           | exact ⟨fun h => h, fun h => h, fun h => h⟩
           | (refine latchV1Trans ?_ (checkAIUsageThresholdLatchV1 _)
              exact ⟨fun h => h, fun h => h, fun h => h⟩))
      | (refine latchV1Trans ?_ (checkTypingPatternsLatchV1 _ _)
         first
           | exact ⟨fun h => h, fun h => h, fun h => h⟩
           | (refine latchV1Trans ?_ (checkAIUsageThresholdLatchV1 _)
              exact ⟨fun h => h, fun h => h, fun h => h⟩)
           | (refine latchV1Trans ?_ (addSuspiciousPatternLatchV1 _ _ _ _)
              first
                | exact ⟨fun h => h, fun h => h, fun h => h⟩
                | (refine latchV1Trans ?_ (checkAIUsageThresholdLatchV1 _)
                   exact ⟨fun h => h, fun h => h, fun h => h⟩)))

/-- `handlePaste` (earlier revision) never lowers a latched flag. -/
theorem handlePasteLatchV1 (cd : Option String) (now : Nat)
    (m : V1.DetectionManager) :
    latchFlagsV1 m.state ((V1.handlePaste cd now m).1).state := by
  unfold V1.handlePaste
  dsimp only
  split
  · refine latchV1Trans (latchV1Trans ?_ (checkForAIUsageLatchV1 _ _))
      (checkForSuspiciousPatternsLatchV1 _ _ _)
    exact ⟨fun h => h, fun h => h, fun h => h⟩
  · exact latchV1Refl _

/-- The periodic clipboard poll (earlier revision) never lowers a latched
flag. -/
theorem pollTickLatchV1 (r : Except Unit String) (m : V1.DetectionManager) :
    latchFlagsV1 m.state ((V1.pollTick r m).1).state := by
  unfold V1.pollTick
  repeat' split
  all_goals
    first
      | exact latchV1Refl _
      | exact checkForAIUsageLatchV1 _ _

/-- Every event handled by the earlier revision's manager preserves latched
flags. -/
theorem stepLatchV1 (e : V1.Event) (m : V1.DetectionManager) :
    latchFlagsV1 m.state ((V1.step e m).1).state := by
  cases e with
  | visibility visible now =>
    cases visible
    · obtain ⟨b, es, hs, hm⟩ := handleVisibilityHiddenShapeV1 now m
      show latchFlagsV1 m.state ((V1.handleVisibilityChange false now m).1).state
      rw [hs]
      exact ⟨fun h => h, hm, fun h => h⟩
    · exact ⟨fun h => h, fun h => h, fun h => h⟩
  | focusWin => exact ⟨fun h => h, fun h => h, fun h => h⟩
  | blurWin => exact ⟨fun h => h, fun h => h, fun h => h⟩
  | screenFocusFire =>
    show latchFlagsV1 m.state ((V1.screenFocusTimerFire m).1).state
    unfold V1.screenFocusTimerFire
    split
    · exact ⟨fun h => h, fun _ => rfl, fun h => h⟩
    · exact latchV1Refl _
  | inactivityFire =>
    show latchFlagsV1 m.state ((V1.inactivityTimerFire m).1).state
    unfold V1.inactivityTimerFire
    split
    · exact ⟨fun h => h, fun _ => rfl, fun h => h⟩
    · exact latchV1Refl _
  | mouseMove x y now => exact handleMouseMoveLatchV1 x y now m
  | keyPress key c mk now => exact handleKeyPressLatchV1 key c mk now m
  | pasteEv cd now => exact handlePasteLatchV1 cd now m
  | pollTickEv r => exact pollTickLatchV1 r m

/-- `latchFlagsV2` is reflexive. -/
theorem latchV2Refl (a : V2.DetectionState) : latchFlagsV2 a a :=
  ⟨fun h => h, fun h => h, fun h => h⟩

/-- `latchFlagsV2` is transitive. -/
theorem latchV2Trans {a b c : V2.DetectionState} (h1 : latchFlagsV2 a b)
    (h2 : latchFlagsV2 b c) : latchFlagsV2 a c :=
  ⟨fun h => h2.1 (h1.1 h), fun h => h2.2.1 (h1.2.1 h),
    fun h => h2.2.2 (h1.2.2 h)⟩

/-- `addSuspiciousPattern` (later revision) only rewrites
`state.suspiciousPatterns`. -/
theorem addSuspiciousPatternShapeV2 (pat : PatternEntry) (now : Nat)
    (m : V2.DetectionManager) :
    ∃ sp es, V2.addSuspiciousPattern pat now m =
      ({ m with state := { m.state with suspiciousPatterns := sp } }, es) := by
  unfold V2.addSuspiciousPattern
  dsimp only
  split
  · exact ⟨_, _, rfl⟩
  · exact ⟨m.state.suspiciousPatterns, [], rfl⟩

/-- `addSuspiciousPattern` (later revision) never lowers a latched flag. -/
theorem addSuspiciousPatternLatchV2 (pat : PatternEntry) (now : Nat)
    (m : V2.DetectionManager) :
    latchFlagsV2 m.state ((V2.addSuspiciousPattern pat now m).1).state := by
  obtain ⟨sp, es, h⟩ := addSuspiciousPatternShapeV2 pat now m
  rw [h]
  exact ⟨fun h => h, fun h => h, fun h => h⟩

/-- `checkAIUsageThreshold` (later revision) never lowers a latched flag. -/
theorem checkAIUsageThresholdLatchV2 (m : V2.DetectionManager) :
    latchFlagsV2 m.state ((V2.checkAIUsageThreshold m).1).state := by
  unfold V2.checkAIUsageThreshold
  dsimp only
  split
  · exact ⟨fun _ => rfl, fun h => h, fun h => h⟩
  · exact latchV2Refl _

/-- `checkForAIUsage` (later revision) never lowers a latched flag (its
only state effect beyond the returned score is `addSuspiciousPattern`). -/
theorem checkForAIUsageLatchV2 (text : String) (now : Nat)
    (m : V2.DetectionManager) :
    latchFlagsV2 m.state ((V2.checkForAIUsage text now m).2.1).state := by
  unfold V2.checkForAIUsage
  dsimp only
  split
  · exact addSuspiciousPatternLatchV2 _ _ _
  · exact latchV2Refl _

/-- `checkTypingPatterns` (later revision) never lowers a latched flag. -/
theorem checkTypingPatternsLatchV2 (now : Nat) (m : V2.DetectionManager) :
    latchFlagsV2 m.state ((V2.checkTypingPatterns now m).1).state := by
  unfold V2.checkTypingPatterns
  split
  · exact latchV2Refl _
  · dsimp only
    repeat' split
    all_goals
      first
        | exact ⟨fun h => h, fun h => h, fun h => h⟩
        | (refine latchV2Trans ?_ (addSuspiciousPatternLatchV2 _ _ _)
           exact ⟨fun h => h, fun _ => rfl, fun h => h⟩)

/-- `handleMouseMove` (later revision) never lowers a latched flag. -/
theorem handleMouseMoveLatchV2 (x y : Int) (now : Nat)
    (m : V2.DetectionManager) :
    latchFlagsV2 m.state ((V2.handleMouseMove x y now m).1).state := by
  unfold V2.handleMouseMove V2.resetInactivityTimer
  dsimp only
  repeat' split
  all_goals
    first
      | exact ⟨fun h => h, fun h => h, fun h => h⟩
      | (refine latchV2Trans ?_ (addSuspiciousPatternLatchV2 _ _ _)
         first
           | exact ⟨fun h => h, fun h => h, fun h => h⟩
           | exact ⟨fun h => h, fun _ => rfl, fun h => h⟩
           | (refine latchV2Trans ?_ (addSuspiciousPatternLatchV2 _ _ _)
              first
                | exact ⟨fun h => h, fun h => h, fun h => h⟩
                | exact ⟨fun h => h, fun _ => rfl, fun h => h⟩))

/-- `handleKeyPress` (later revision) never lowers a latched flag. -/
theorem handleKeyPressLatchV2 (key : String) (c mk : Bool) (now : Nat)
    (m : V2.DetectionManager) :
    latchFlagsV2 m.state ((V2.handleKeyPress key c mk now m).1).state := by
  unfold V2.handleKeyPress V2.resetInactivityTimer
  dsimp only
  repeat' split
  all_goals
    first
      | exact ⟨fun h => h, fun h => h, fun h => h⟩
      | (refine latchV2Trans ?_ (checkAIUsageThresholdLatchV2 _)
         exact ⟨fun h => h, fun h => h, fun h => h⟩)
      | (refine latchV2Trans ?_ (addSuspiciousPatternLatchV2 _ _ _)
         first
           | exact ⟨fun h => h, fun h => h, fun h => h⟩
           | (refine latchV2Trans ?_ (checkAIUsageThresholdLatchV2 _)
              exact ⟨fun h => h, fun h => h, fun h => h⟩))
      | (refine latchV2Trans ?_ (checkTypingPatternsLatchV2 _ _)
         first
           | exact ⟨fun h => h, fun h => h, fun h => h⟩
           | (refine latchV2Trans ?_ (checkAIUsageThresholdLatchV2 _)
              exact ⟨fun h => h, fun h => h, fun h => h⟩)
           | (refine latchV2Trans ?_ (addSuspiciousPatternLatchV2 _ _ _)
              first
                | exact ⟨fun h => h, fun h => h, fun h => h⟩
                | (refine latchV2Trans ?_ (checkAIUsageThresholdLatchV2 _)
                   exact ⟨fun h => h, fun h => h, fun h => h⟩)))

/-- The AI branch of the later revision's paste handler (score check,
`hasAIUsage` latch, pattern entry) never lowers a latched flag. -/
theorem pasteBodyLatchV2 (pat : PatternEntry) (text : String) (now : Nat)
    (m0 mm : V2.DetectionManager) (h0 : latchFlagsV2 m0.state mm.state) :
    latchFlagsV2 m0.state
      ((if (V2.checkForAIUsage text now mm).1 = true then
          V2.addSuspiciousPattern pat now
            { (V2.checkForAIUsage text now mm).2.1 with
              state := { (V2.checkForAIUsage text now mm).2.1.state with
                hasAIUsage := true } }
        else ((V2.checkForAIUsage text now mm).2.1, [])).1).state := by
  split
  · refine latchV2Trans ?_ (addSuspiciousPatternLatchV2 _ _ _)
    refine latchV2Trans (latchV2Trans h0 (checkForAIUsageLatchV2 text now mm)) ?_
    exact ⟨fun _ => rfl, fun h => h, fun h => h⟩
  · exact latchV2Trans h0 (checkForAIUsageLatchV2 _ _ _)

/-- Every event handled by the later revision's manager preserves latched
flags (a throwing paste/copy handler aborts before any state mutation). -/
theorem stepLatchV2 (e : V2.Event) (m : V2.DetectionManager) :
    latchFlagsV2 m.state ((V2.step e m).1).state := by
  cases e with
  | visibility visible now =>
    show latchFlagsV2 m.state
      ((V2.handleVisibilityChange visible now m).1).state
    unfold V2.handleVisibilityChange
    dsimp only
    split
    · exact ⟨fun h => h, fun h => h, fun h => h⟩
    · exact ⟨fun h => h, fun h => h, fun h => h⟩
  | focusWin => exact ⟨fun h => h, fun h => h, fun h => h⟩
  | blurWin => exact ⟨fun h => h, fun h => h, fun h => h⟩
  | screenFocusFire =>
    show latchFlagsV2 m.state ((V2.screenFocusTimerFire m).1).state
    unfold V2.screenFocusTimerFire
    split
    · exact ⟨fun h => h, fun _ => rfl, fun h => h⟩
    · exact latchV2Refl _
  | inactivityFire =>
    show latchFlagsV2 m.state ((V2.inactivityTimerFire m).1).state
    unfold V2.inactivityTimerFire
    split
    · exact ⟨fun h => h, fun _ => rfl, fun h => h⟩
    · exact latchV2Refl _
  | mouseMove x y now => exact handleMouseMoveLatchV2 x y now m
  | keyPress key c mk now => exact handleKeyPressLatchV2 key c mk now m
  | pasteEv cd target url now =>
    show latchFlagsV2 m.state
      ((match V2.handlePaste cd target url now m with
        | .ok r => r
        | .error t => (t.mgr, t.emitted)).1).state
    unfold V2.handlePaste
    dsimp only
    by_cases hcd : truthyStr cd = true
    · rw [if_pos hcd]
      cases target with
      | none => exact latchV2Refl _
      | some t =>
        dsimp only
        refine pasteBodyLatchV2 _ _ _ _ _ ?_
        by_cases hweb : (V2.detectClipboardSource (some t) == V2.ClipSource.web) = true
        · rw [if_pos hweb]
          exact ⟨fun h => h, fun h => h, fun h => h⟩
        · rw [if_neg hweb]
          exact ⟨fun h => h, fun h => h, fun h => h⟩
    · rw [if_neg hcd]
      exact latchV2Refl _
  | copyEv sel target url now =>
    show latchFlagsV2 m.state
      ((match V2.handleCopy sel target url now m with
        | .ok r => r
        | .error t => (t.mgr, t.emitted)).1).state
    unfold V2.handleCopy
    dsimp only
    by_cases hsel : truthyStr sel = true
    · rw [if_pos hsel]
      cases target with
      | none => exact latchV2Refl _
      | some t =>
        dsimp only
        by_cases hweb : (V2.detectClipboardSource (some t) == V2.ClipSource.web) = true
        · rw [if_pos hweb]
          exact ⟨fun h => h, fun h => h, fun h => h⟩
        · rw [if_neg hweb]
          exact ⟨fun h => h, fun h => h, fun h => h⟩
    · rw [if_neg hsel]
      exact latchV2Refl _
  | pollTickEv r now =>
    show latchFlagsV2 m.state ((V2.pollTick r now m).1).state
    unfold V2.pollTick
    dsimp only
    split
    · split
      · exact checkForAIUsageLatchV2 _ _ _
      · exact latchV2Refl _
    · exact latchV2Refl _

/-- C5 counterexample: the `part_001` variant's paste listener recomputes
`hasAIUsage` on every paste, so a paste matching an AI pattern (`"AI"`,
matched case-insensitively by `/AI/i`) latches the flag and a following
benign paste (`"qq"`) clears it back to `false` — an event handler, not
`resetState`, returned the flag to `false`. -/
theorem c5_counterexample :
    ((P1.pasteListener (some "AI") (P1.initialStateAt 0)).1).hasAIUsage = true ∧
    ((P1.pasteListener (some "qq")
      ((P1.pasteListener (some "AI") (P1.initialStateAt 0)).1)).1).hasAIUsage = false := by
  exact ⟨by decide, by decide⟩

/-- C5 (amended): in both revisions of `detectionUtils.ts`, the flags
`hasAIUsage`, `hasSuspiciousActivity` and `hasMultipleScreens` are one-way
latches — no event handler ever changes any of them from `true` to
`false`, and `resetState()` returns them to `false`; the `part_001`
variant's paste listener, however, overwrites `hasAIUsage` on every paste
and can clear it (see the counterexample). -/
theorem c5_flags_latch :
    (∀ (e : V1.Event) (m : V1.DetectionManager),
      latchFlagsV1 m.state ((V1.step e m).1).state) ∧
    (∀ (e : V2.Event) (m : V2.DetectionManager),
      latchFlagsV2 m.state ((V2.step e m).1).state) ∧
    (∀ (now : Nat) (m : V1.DetectionManager),
      ((V1.resetState now m).1).state.hasAIUsage = false ∧
      ((V1.resetState now m).1).state.hasSuspiciousActivity = false ∧
      ((V1.resetState now m).1).state.hasMultipleScreens = false) ∧
    (∀ (now : Nat) (m : V2.DetectionManager),
      ((V2.resetState now m).1).state.hasAIUsage = false ∧
      ((V2.resetState now m).1).state.hasSuspiciousActivity = false ∧
      ((V2.resetState now m).1).state.hasMultipleScreens = false) :=
  ⟨stepLatchV1, stepLatchV2,
    fun _ _ => ⟨rfl, rfl, rfl⟩, fun _ _ => ⟨rfl, rfl, rfl⟩⟩

/-- C5 witness: a concrete manager with all three flags latched keeps them
latched across a handled event of each revision. -/
theorem c5_witness :
    ((V1.step V1.Event.blurWin { V1.initManager with state :=
      { V1.initManager.state with hasAIUsage := true, hasSuspiciousActivity := true, hasMultipleScreens := true } }).1).state.hasAIUsage = true ∧
    ((V2.step V2.Event.inactivityFire { V2.initManager with
      inactivityTimerArmed := true
      state := { V2.initManager.state with hasAIUsage := true, hasSuspiciousActivity := true, hasMultipleScreens := true } }).1).state.hasMultipleScreens = true := by
  constructor
  · exact (c5_flags_latch.1 V1.Event.blurWin _).1 rfl
  · exact (c5_flags_latch.2.1 V2.Event.inactivityFire _).2.2 rfl
